import Mathlib

/-!
Verification of the request-governance core of the reelsdownloader bot:
the metrics event store (`metricsStore.js`, class `MetricsStore`), the
metrics aggregator (`metrics.js`, class `BotMetrics`) and the rate
governor (`rateLimiter.js`, class `RateLimiter`).

Conventions of the embedding:
* JS `Map` and plain objects used as string-keyed dictionaries are
  association lists `List (String × β)` in insertion order (JS preserves
  insertion order; `set` on an existing key keeps its position).
* Timestamps are `Int` milliseconds (`Date.now()` values and the
  subtractions `now - windowMs` that may go below zero).
* The float comparison `x / limit >= 0.8` of `checkForWarnings` is
  embedded as the exact integer inequality `10 * x >= 8 * limit`, which
  agrees with the JS float computation for every positive `limit`
  (all configured limits are positive).  Quantities that the code only
  stores but never branches on (`toFixed(2)` strings, `Math.round`
  percentages, averages) are embedded over `ℚ`.
-/

/-- `Option.getD`-style lookup in an insertion-ordered association list,
modelling `Map.prototype.get` / object indexing. -/
def lookupA {β : Type} (l : List (String × β)) (k : String) : Option β :=
  match l with
  | [] => none
  | (k2, v) :: rest => if k2 = k then some v else lookupA rest k

/-- Replace the value at key `k` (first occurrence), keeping its position:
the effect of mutating a fetched entry in place, or of `Map.set` on an
existing key. -/
def updateA {β : Type} (l : List (String × β)) (k : String) (f : β → β) :
    List (String × β) :=
  l.map (fun kv => if kv.1 = k then (kv.1, f kv.2) else kv)

/-- `Map.set` semantics: update in place when the key exists, else append. -/
def setA {β : Type} (l : List (String × β)) (k : String) (v : β) :
    List (String × β) :=
  if (lookupA l k).isSome then updateA l k (fun _ => v) else l ++ [(k, v)]

/-- `Map.delete` semantics. -/
def eraseA {β : Type} (l : List (String × β)) (k : String) :
    List (String × β) :=
  l.filter (fun kv => !(kv.1 = k : Bool))

/-- `requestData` as built by `BotMetrics.recordRequest` and stored by
`MetricsStore.addRequest`. -/
structure RequestEvent where
  timestamp : Int
  chatId : String
  chatType : String
  platform : String
  isSuccess : Bool
  chatName : Option String
deriving DecidableEq

/-- The `platformBreakdown` object literal
`{ instagram: 0, tiktok: 0, facebook: 0 }` of a chat metric. -/
structure PlatformBreakdown where
  instagram : Nat
  tiktok : Nat
  facebook : Nat
deriving DecidableEq

/-- A per-chat aggregate entry of `MetricsStore.chatMetrics`. -/
structure ChatMetric where
  chatId : String
  chatName : String
  chatType : String
  totalRequests : Nat
  successfulRequests : Nat
  failedRequests : Nat
  platformBreakdown : PlatformBreakdown
  firstSeen : Int
  lastSeen : Int
deriving DecidableEq

/-- A performance sample stored by `MetricsStore.addPerformanceData`. -/
structure PerfSample where
  timestamp : Int
  chatId : String
  platform : String
  latencyMs : Int
  fileSizeBytes : Int
  error : Option String
deriving DecidableEq

/-- In-memory state of `MetricsStore` (its three data structures). -/
structure MetricsStore where
  requests : List RequestEvent
  performanceData : List PerfSample
  chatMetrics : List (String × ChatMetric)
deriving DecidableEq

/-- A `MetricsStore` started on an empty data directory. -/
def MetricsStore.empty : MetricsStore := ⟨[], [], []⟩

/-- `platformBreakdown[platform]++` guarded by
`platformBreakdown[platform] !== undefined` (the object only ever has the
three literal keys). -/
def bumpPlatform (pb : PlatformBreakdown) (p : String) : PlatformBreakdown :=
  if p = "instagram" then { pb with instagram := pb.instagram + 1 }
  else if p = "tiktok" then { pb with tiktok := pb.tiktok + 1 }
  else if p = "facebook" then { pb with facebook := pb.facebook + 1 }
  else pb

/-- The fresh aggregate created by `addRequest` for an unseen chat key
(`chatName: requestData.chatName || 'Unknown'`,
`chatType: requestData.chatType || 'private'`; `||` tests JS truthiness,
so the empty string also falls back). -/
def newChatMetric (e : RequestEvent) : ChatMetric :=
  { chatId := e.chatId
    chatName := match e.chatName with
      | some s => if s = "" then "Unknown" else s
      | none => "Unknown"
    chatType := if e.chatType = "" then "private" else e.chatType
    totalRequests := 0
    successfulRequests := 0
    failedRequests := 0
    platformBreakdown := ⟨0, 0, 0⟩
    firstSeen := e.timestamp
    lastSeen := e.timestamp }

/-- The in-place mutation `addRequest` performs on the fetched aggregate:
counter bumps, `lastSeen`, optional name/type refresh, success/failure
split and the platform breakdown bump. -/
def updChatMetric (e : RequestEvent) (m : ChatMetric) : ChatMetric :=
  let m := { m with
    totalRequests := m.totalRequests + 1
    lastSeen := e.timestamp }
  let m := match e.chatName with
    | some s => if s = "" then m else { m with chatName := s }
    | none => m
  let m := if e.chatType = "" then m else { m with chatType := e.chatType }
  let m := if e.isSuccess then
      { m with successfulRequests := m.successfulRequests + 1 }
    else
      { m with failedRequests := m.failedRequests + 1 }
  { m with platformBreakdown := bumpPlatform m.platformBreakdown e.platform }

/-- `MetricsStore.addRequest`: push the event, update (create-if-absent)
the chat aggregate, then cap the in-memory log — when more than 10000
events are held, keep only the newest 5000 (`slice(-5000)`). -/
def MetricsStore.addRequest (s : MetricsStore) (e : RequestEvent) :
    MetricsStore :=
  let requests1 := s.requests ++ [e]
  let cm0 :=
    if (lookupA s.chatMetrics e.chatId).isSome then s.chatMetrics
    else s.chatMetrics ++ [(e.chatId, newChatMetric e)]
  let cm := updateA cm0 e.chatId (updChatMetric e)
  let requests2 :=
    if requests1.length > 10000 then
      requests1.drop (requests1.length - 5000)
    else requests1
  { s with requests := requests2, chatMetrics := cm }

/-- `MetricsStore.addPerformanceData`: push the sample; keep only the
newest 2500 once more than 5000 are held. -/
def MetricsStore.addPerformanceData (s : MetricsStore) (p : PerfSample) :
    MetricsStore :=
  let pd1 := s.performanceData ++ [p]
  let pd2 :=
    if pd1.length > 5000 then pd1.drop (pd1.length - 2500) else pd1
  { s with performanceData := pd2 }

/-- `Number.prototype.toFixed(2)` on a (nonnegative) percentage, embedded
over `ℚ`: round to hundredths and print with two decimals. -/
def toFixed2 (q : ℚ) : String :=
  let n : Int := ⌊q * 100 + 1 / 2⌋
  let frac := (n % 100).toNat
  toString (n / 100) ++ "." ++ (if frac < 10 then "0" else "") ++ toString frac

/-- The success-rate string `((successful / total) * 100).toFixed(2)`
computed by `getChatMetrics` and `getTopChats` for a seen chat. -/
def successRateStr (m : ChatMetric) : String :=
  if m.totalRequests > 0 then
    toFixed2 (((m.successfulRequests : ℚ) / (m.totalRequests : ℚ)) * 100)
  else "0.00"

/-- Return shape of `MetricsStore.getChatMetrics`.  The unknown-key branch
omits `chatName` / `chatType` and has `null` timestamps, hence the
`Option` fields. -/
structure ChatMetricsView where
  chatId : String
  chatName : Option String
  chatType : Option String
  totalRequests : Nat
  successfulRequests : Nat
  failedRequests : Nat
  platformBreakdown : PlatformBreakdown
  firstSeen : Option Int
  lastSeen : Option Int
  successRate : String
deriving DecidableEq

/-- The zero-valued aggregate `getChatMetrics` returns for a chat key it
has never seen. -/
def zeroChatView (chatId : String) : ChatMetricsView :=
  ⟨chatId, none, none, 0, 0, 0, ⟨0, 0, 0⟩, none, none, "0.00"⟩

/-- `MetricsStore.getChatMetrics`. -/
def MetricsStore.getChatMetrics (s : MetricsStore) (chatId : String) :
    ChatMetricsView :=
  match lookupA s.chatMetrics chatId with
  | none => zeroChatView chatId
  | some m =>
    ⟨m.chatId, some m.chatName, some m.chatType, m.totalRequests,
      m.successfulRequests, m.failedRequests, m.platformBreakdown,
      some m.firstSeen, some m.lastSeen, successRateStr m⟩

/-- The comparator `(a, b) => b.totalRequests - a.totalRequests` of
`getTopChats` orders by `totalRequests` descending. -/
def topRel (a b : ChatMetric) : Prop := b.totalRequests ≤ a.totalRequests

instance : DecidableRel topRel := fun a b =>
  inferInstanceAs (Decidable (b.totalRequests ≤ a.totalRequests))

instance : IsTotal ChatMetric topRel :=
  ⟨fun a b => le_total b.totalRequests a.totalRequests⟩

instance : IsTrans ChatMetric topRel :=
  ⟨fun _ _ _ h1 h2 => le_trans h2 h1⟩

/-- `MetricsStore.getTopChats`: sort the aggregates by `totalRequests`
descending, truncate, and annotate each with its success-rate string.
`Array.prototype.sort` is a stable sort, and for the total preorder
`topRel` the stable sort is exactly `List.insertionSort`. -/
def MetricsStore.getTopChats (s : MetricsStore) (limit : Nat) :
    List (ChatMetric × String) :=
  (((s.chatMetrics.map Prod.snd).insertionSort topRel).take limit).map
    (fun c => (c, successRateStr c))

/-- `MetricsStore.getRecentRequests(minutesBack)`: events with
`timestamp > now - minutesBack * 60000`. -/
def MetricsStore.getRecentRequests (s : MetricsStore) (minutesBack : Nat)
    (now : Int) : List RequestEvent :=
  s.requests.filter (fun r => decide (r.timestamp > now - minutesBack * 60000))

/-- `MetricsStore.getRecentFailures(minutesBack)`: recent events with
`!req.isSuccess`. -/
def MetricsStore.getRecentFailures (s : MetricsStore) (minutesBack : Nat)
    (now : Int) : List RequestEvent :=
  s.requests.filter
    (fun r => decide (r.timestamp > now - minutesBack * 60000) && !r.isSuccess)

/-- The contents of the three JSON files written by
`MetricsStore.persistData`. -/
structure PersistedFiles where
  requestsFile : List RequestEvent
  performanceFile : List PerfSample
  metricsFile : List (String × ChatMetric)
deriving DecidableEq

/-- `MetricsStore.persistData`: serialize the three collections. -/
def MetricsStore.persistData (s : MetricsStore) : PersistedFiles :=
  ⟨s.requests, s.performanceData, s.chatMetrics⟩

/-- `MetricsStore.loadData` on a fresh instance when all three files are
present: restore the three collections as given. -/
def MetricsStore.loadFromFiles (f : PersistedFiles) : MetricsStore :=
  ⟨f.requestsFile, f.performanceFile, f.metricsFile⟩

/-- The in-memory counters object of `BotMetrics`.  `requestsByPlatform`
and `requestsByChatType` are plain objects indexed by arbitrary strings:
`recordRequest` creates keys on demand (`(x[k] || 0) + 1`), so they are
insertion-ordered association lists. -/
structure Counters where
  totalRequests : Nat
  totalFailures : Nat
  requestsByPlatform : List (String × Nat)
  requestsByChatType : List (String × Nat)
deriving DecidableEq

/-- The counters object literal used both by the `BotMetrics` constructor
and by the reset at the top of `rebuildCountersFromStorage`. -/
def initCounters : Counters :=
  ⟨0, 0,
    [("instagram", 0), ("tiktok", 0), ("facebook", 0)],
    [("private", 0), ("group", 0), ("supergroup", 0)]⟩

/-- The `performanceData` accumulator object of `BotMetrics`. -/
structure PerfAccum where
  totalLatency : Int
  requestCount : Nat
  totalFileSize : Int
  downloadCount : Nat
deriving DecidableEq

def initPerfAccum : PerfAccum := ⟨0, 0, 0, 0⟩

/-- The hardcoded `this.rateLimits` object of `BotMetrics` — note these
are distinct from the configurable limits of `RateLimiter`. -/
structure BotRateLimits where
  perMinute : Nat
  perHour : Nat
  groupPerMinute : Nat
deriving DecidableEq

def botRateLimits : BotRateLimits := ⟨60, 1000, 20⟩

/-- State of a `BotMetrics` instance. `rateLimitWindows` maps a chat key
to its sliding window of request timestamps. -/
structure BotMetrics where
  store : MetricsStore
  rateLimitWindows : List (String × List Int)
  startTime : Int
  counters : Counters
  performanceData : PerfAccum
deriving DecidableEq

/-- A `BotMetrics` constructed over an empty data directory at `t0`. -/
def BotMetrics.fresh (t0 : Int) : BotMetrics :=
  ⟨MetricsStore.empty, [], t0, initCounters, initPerfAccum⟩

/-- `(x[k] || 0) + 1` on a counter object: increment an existing key in
place, otherwise create it with value `1`. -/
def bumpKey (l : List (String × Nat)) (k : String) : List (String × Nat) :=
  if (lookupA l k).isSome then updateA l k (· + 1) else l ++ [(k, 1)]

/-- `if (x[k] !== undefined) x[k]++` — the guarded increment used by
`rebuildCountersFromStorage`, which never creates keys. -/
def bumpIfPresent (l : List (String × Nat)) (k : String) :
    List (String × Nat) :=
  if (lookupA l k).isSome then updateA l k (· + 1) else l

/-- The counter updates `recordRequest` performs before storing. -/
def recordStep (c : Counters) (e : RequestEvent) : Counters :=
  { totalRequests := c.totalRequests + 1
    totalFailures := c.totalFailures + (if e.isSuccess then 0 else 1)
    requestsByPlatform := bumpKey c.requestsByPlatform e.platform
    requestsByChatType := bumpKey c.requestsByChatType e.chatType }

/-- `BotMetrics.updateRateLimitWindow`: push the timestamp, then shift
entries older than one hour off the front. -/
def updateRateLimitWindow (w : List (String × List Int)) (chatKey : String)
    (timestamp : Int) : List (String × List Int) :=
  let window := (lookupA w chatKey).getD []
  let window1 := window ++ [timestamp]
  let window2 := window1.dropWhile (fun ts => decide (ts < timestamp - 3600000))
  setA w chatKey window2

/-- `BotMetrics.recordRequest` (the caller passes `Date.now()` as
`timestamp`). -/
def BotMetrics.recordRequest (m : BotMetrics) (chatId chatType platform : String)
    (isSuccess : Bool) (chatName : Option String) (timestamp : Int) :
    BotMetrics :=
  let e : RequestEvent := ⟨timestamp, chatId, chatType, platform, isSuccess, chatName⟩
  { m with
    counters := recordStep m.counters e
    store := m.store.addRequest e
    rateLimitWindows := updateRateLimitWindow m.rateLimitWindows chatId timestamp }

/-- `BotMetrics.recordDownloadMetrics`: store the sample; accumulate the
performance totals only on success (`error == null`).  The stored error
field is the message of the passed error, when any. -/
def BotMetrics.recordDownloadMetrics (m : BotMetrics) (chatId platform : String)
    (latencyMs fileSizeBytes : Int) (error : Option String) (timestamp : Int) :
    BotMetrics :=
  let sample : PerfSample := ⟨timestamp, chatId, platform, latencyMs, fileSizeBytes, error⟩
  let pa :=
    if error.isNone then
      { totalLatency := m.performanceData.totalLatency + latencyMs
        requestCount := m.performanceData.requestCount + 1
        totalFileSize := m.performanceData.totalFileSize + fileSizeBytes
        downloadCount := m.performanceData.downloadCount + 1 : PerfAccum }
    else m.performanceData
  { m with
    performanceData := pa
    store := m.store.addPerformanceData sample }

/-- Result object of `BotMetrics.checkRateLimit` (its `limits` sub-object
is flattened into the two `limits*` fields). -/
structure RateCheck where
  allowed : Bool
  requestsLastMinute : Nat
  requestsLastHour : Nat
  limitsPerMinute : Nat
  limitsPerHour : Nat
deriving DecidableEq

/-- `BotMetrics.checkRateLimit`: count the chat's window entries in the
last minute and hour and compare them against the hardcoded
`this.rateLimits` (60/minute for `private`, 20/minute otherwise,
1000/hour). -/
def BotMetrics.checkRateLimit (m : BotMetrics) (chatId chatType : String)
    (now : Int) : RateCheck :=
  let window := (lookupA m.rateLimitWindows chatId).getD []
  let requestsLastMinute := (window.filter (fun ts => decide (ts > now - 60000))).length
  let requestsLastHour := (window.filter (fun ts => decide (ts > now - 3600000))).length
  let minuteLimit :=
    if chatType = "private" then botRateLimits.perMinute
    else botRateLimits.groupPerMinute
  { allowed := decide (requestsLastMinute < minuteLimit) &&
      decide (requestsLastHour < botRateLimits.perHour)
    requestsLastMinute := requestsLastMinute
    requestsLastHour := requestsLastHour
    limitsPerMinute := minuteLimit
    limitsPerHour := botRateLimits.perHour }

/-- `Math.round` over the exact rational value. -/
def jsRound (q : ℚ) : Int := ⌊q + 1 / 2⌋

/-- The `successRate` of `getGlobalMetrics` is a string when requests
exist and the number `100` otherwise, hence this union type. -/
inductive StrOrNum where
  | str (s : String)
  | num (n : Nat)
deriving DecidableEq

/-- The `performance` sub-object of `getGlobalMetrics`. -/
structure GlobalPerformance where
  averageLatency : Int
  averageFileSize : Int
  totalDownloads : Nat
  successRate : StrOrNum
deriving DecidableEq

/-- Return shape of `BotMetrics.getGlobalMetrics`. -/
structure GlobalMetrics where
  uptime : Int
  counters : Counters
  performance : GlobalPerformance
  rateLimits : BotRateLimits
  activeWindows : Nat
deriving DecidableEq

/-- `BotMetrics.getGlobalMetrics` (the caller's `Date.now()` is `now`). -/
def BotMetrics.getGlobalMetrics (m : BotMetrics) (now : Int) : GlobalMetrics :=
  let avgLatency : ℚ :=
    if m.performanceData.requestCount > 0 then
      (m.performanceData.totalLatency : ℚ) / (m.performanceData.requestCount : ℚ)
    else 0
  let avgFileSize : ℚ :=
    if m.performanceData.downloadCount > 0 then
      (m.performanceData.totalFileSize : ℚ) / (m.performanceData.downloadCount : ℚ)
    else 0
  { uptime := now - m.startTime
    counters := m.counters
    performance :=
      { averageLatency := jsRound avgLatency
        averageFileSize := jsRound avgFileSize
        totalDownloads := m.performanceData.downloadCount
        successRate :=
          if m.counters.totalRequests > 0 then
            .str (toFixed2
              ((((m.counters.totalRequests : ℚ) - (m.counters.totalFailures : ℚ)) /
                (m.counters.totalRequests : ℚ)) * 100))
          else .num 100 }
    rateLimits := botRateLimits
    activeWindows := m.rateLimitWindows.length }

/-- One pass of the request loop of `rebuildCountersFromStorage`. -/
def rebuildStep (c : Counters) (e : RequestEvent) : Counters :=
  { totalRequests := c.totalRequests + 1
    totalFailures := c.totalFailures + (if e.isSuccess then 0 else 1)
    requestsByPlatform := bumpIfPresent c.requestsByPlatform e.platform
    requestsByChatType := bumpIfPresent c.requestsByChatType e.chatType }

/-- One pass of the performance loop of `rebuildCountersFromStorage`. -/
def rebuildPerfStep (pa : PerfAccum) (p : PerfSample) : PerfAccum :=
  if p.error.isNone then
    { totalLatency := pa.totalLatency + p.latencyMs
      requestCount := pa.requestCount + 1
      totalFileSize := pa.totalFileSize + p.fileSizeBytes
      downloadCount := pa.downloadCount + 1 }
  else pa

/-- The counters `rebuildCountersFromStorage` derives from a stored
request log. -/
def rebuildCounters (l : List RequestEvent) : Counters :=
  l.foldl rebuildStep initCounters

/-- The performance accumulators `rebuildCountersFromStorage` derives
from a stored sample log. -/
def rebuildPerf (l : List PerfSample) : PerfAccum :=
  l.foldl rebuildPerfStep initPerfAccum

/-- `BotMetrics.rebuildCountersFromStorage`: reset both accumulator
objects and replay the stored logs. -/
def BotMetrics.rebuildCountersFromStorage (m : BotMetrics) : BotMetrics :=
  { m with
    counters := rebuildCounters m.store.requests
    performanceData := rebuildPerf m.store.performanceData }

/-- A fresh `BotMetrics` constructed at `t0` over a data directory holding
the given persisted files: the constructor loads them and then invokes
`rebuildCountersFromStorage`. -/
def BotMetrics.freshLoaded (f : PersistedFiles) (t0 : Int) : BotMetrics :=
  (⟨MetricsStore.loadFromFiles f, [], t0, initCounters, initPerfAccum⟩ :
    BotMetrics).rebuildCountersFromStorage

/-- Per-chat-type limit configuration of `RateLimiter.limits`. -/
structure ChatLimits where
  perMinute : Nat
  perHour : Nat
  burstAllowance : Nat
deriving DecidableEq

/-- The global limit configuration of `RateLimiter.limits.global`. -/
structure GlobalLimits where
  perMinute : Nat
  perHour : Nat
deriving DecidableEq

/-- `RateLimiter.limits`.  The field `priv` embeds the JS key `private`
(a reserved word in Lean). -/
structure RLLimits where
  priv : ChatLimits
  group : ChatLimits
  supergroup : ChatLimits
  global : GlobalLimits
deriving DecidableEq

/-- The default limits built by the constructor when no environment
variables are set. -/
def defaultLimits : RLLimits :=
  ⟨⟨10, 100, 3⟩, ⟨20, 200, 5⟩, ⟨15, 150, 4⟩, ⟨100, 2000⟩⟩

/-- `this.limits[chatType]`.  The JS lookup is `undefined` for a chat
type outside the enum and the places that use it unguarded would then
throw; the default keeps the embedding total and is never exercised by a
theorem (all claims use the three enum values). -/
def limitsFor (l : RLLimits) (chatType : String) : ChatLimits :=
  if chatType = "private" then l.priv
  else if chatType = "group" then l.group
  else if chatType = "supergroup" then l.supergroup
  else l.priv

/-- `this.penalties.consecutiveFailures[failures] || 300000`: the duration
table `{3: 30000, 5: 60000, 10: 300000}` with 300000 as the fallback for
unmapped counts. -/
def consecutiveFailuresDuration (failures : Nat) : Int :=
  if failures = 3 then 30000
  else if failures = 5 then 60000
  else if failures = 10 then 300000
  else 300000

/-- A `chatPenalties` entry; `untilMs` embeds the JS field `until`
(a reserved word in Lean). -/
structure Penalty where
  reason : String
  appliedAt : Int
  untilMs : Int
deriving DecidableEq

/-- Result of `RateLimiter.checkChatPenalty`. -/
structure PenaltyInfo where
  penalized : Bool
  reason : Option String
  remainingMs : Int
deriving DecidableEq

/-- `RateLimiter.checkChatPenalty`: report an active penalty, or delete
an expired one.  Returns the updated penalty map alongside the info. -/
def checkChatPenalty (penalties : List (String × Penalty)) (chatKey : String)
    (now : Int) : PenaltyInfo × List (String × Penalty) :=
  match lookupA penalties chatKey with
  | none => (⟨false, none, 0⟩, penalties)
  | some p =>
    if now < p.untilMs then
      (⟨true, some p.reason, p.untilMs - now⟩, penalties)
    else
      (⟨false, none, 0⟩, eraseA penalties chatKey)

/-- Result of `RateLimiter.checkGlobalLimits`. -/
structure GlobalCheck where
  allowed : Bool
  perMinute : Nat
  perHour : Nat
deriving DecidableEq

/-- `RateLimiter.checkGlobalLimits`: prune entries older than one hour
from `globalRequestTimes` (a mutation), then compare the minute and hour
counts against the global caps. -/
def checkGlobalLimits (gl : GlobalLimits) (times : List Int) (now : Int) :
    GlobalCheck × List Int :=
  let times1 := times.filter (fun t => decide (t > now - 3600000))
  let requestsLastMinute := (times1.filter (fun t => decide (t > now - 60000))).length
  ( { allowed := decide (requestsLastMinute < gl.perMinute) &&
        decide (times1.length < gl.perHour)
      perMinute := requestsLastMinute
      perHour := times1.length },
    times1 )

/-- `RateLimiter.updateGlobalTracking`: push `now`; keep the newest 2500
entries once more than 5000 are held. -/
def updateGlobalTracking (times : List Int) (now : Int) : List Int :=
  let times1 := times ++ [now]
  if times1.length > 5000 then times1.drop (times1.length - 2500) else times1

/-- The timestamps `checkRapidFire` inspects: those of the chat's events
within the store's last minute. -/
def chatRecentTimestamps (store : MetricsStore) (chatKey : String)
    (now : Int) : List Int :=
  ((store.getRecentRequests 1 now).filter (fun r => r.chatId = chatKey)).map
    (fun r => r.timestamp)

/-- `RateLimiter.checkRapidFire`, returning the `allowed` flag: deny when
the chat has at least 5 (the threshold) requests in the store's last
minute and the span between the oldest and newest of those is under the
10000 ms rapid-fire window. -/
def checkRapidFire (store : MetricsStore) (chatKey : String) (now : Int) :
    Bool :=
  let chatRecentRequests := chatRecentTimestamps store chatKey now
  if chatRecentRequests.length ≥ 5 then
    let oldestRecent := (chatRecentRequests.min?).getD 0
    let newestRecent := (chatRecentRequests.max?).getD 0
    !decide (newestRecent - oldestRecent < 10000)
  else true

/-- `RateLimiter.getRecentFailures`: the chat's failure count over the
store's last 10 minutes. -/
def getRecentFailuresCount (store : MetricsStore) (chatKey : String)
    (now : Int) : Nat :=
  ((store.getRecentFailures 10 now).filter (fun r => r.chatId = chatKey)).length

/-- `RateLimiter.applyPenalty`: overwrite the chat's penalty entry with
`until = now + duration`, the duration chosen by the reason. -/
def applyPenalty (penalties : List (String × Penalty)) (store : MetricsStore)
    (chatKey reason : String) (now : Int) : List (String × Penalty) :=
  let penaltyDuration : Int :=
    if reason = "consecutive_failures" then
      consecutiveFailuresDuration (getRecentFailuresCount store chatKey now)
    else if reason = "rapid_fire" then 60000
    else 60000
  setA penalties chatKey ⟨reason, now, now + penaltyDuration⟩

/-- `usage >= 0.8` where `usage = x / limit` is computed in JS floats:
for positive `limit` this is exactly `10 * x >= 8 * limit`. -/
def usageAtLeast80 (x limit : Nat) : Bool := decide (10 * x ≥ 8 * limit)

/-- The warning object returned by `checkForWarnings` (its `usage` field
is `Math.round(max(minuteUsage, hourUsage) * 100)`). -/
structure Warning where
  limitType : String
  remaining : Int
  usage : Int
deriving DecidableEq

/-- `RateLimiter.checkForWarnings`: when either usage ratio is at least
80% and no warning was issued to this chat in the last 300000 ms, record
and return a warning.  Returns the updated warning map. -/
def checkForWarnings (limits : RLLimits) (warnings : List (String × Int))
    (chatKey : String) (rc : RateCheck) (chatType : String) (now : Int) :
    Option Warning × List (String × Int) :=
  let l := limitsFor limits chatType
  let minute80 := usageAtLeast80 rc.requestsLastMinute l.perMinute
  let hour80 := usageAtLeast80 rc.requestsLastHour l.perHour
  if minute80 || hour80 then
    let lastWarning := lookupA warnings chatKey
    if lastWarning.isNone || decide ((now - lastWarning.getD 0) > 300000) then
      let limitType := if minute80 then "per-minute" else "per-hour"
      let remaining : Int :=
        if minute80 then (l.perMinute : Int) - (rc.requestsLastMinute : Int)
        else (l.perHour : Int) - (rc.requestsLastHour : Int)
      let usage := jsRound (100 * max
        ((rc.requestsLastMinute : ℚ) / (l.perMinute : ℚ))
        ((rc.requestsLastHour : ℚ) / (l.perHour : ℚ)))
      (some ⟨limitType, remaining, usage⟩, setA warnings chatKey now)
    else (none, warnings)
  else (none, warnings)

/-- State owned by the `RateLimiter` instance (its `metrics` reference is
modelled separately in `Sys`). -/
structure RateLimiter where
  enabled : Bool
  limits : RLLimits
  chatPenalties : List (String × Penalty)
  chatWarnings : List (String × Int)
  globalRequestTimes : List Int
deriving DecidableEq

/-- A freshly constructed, enabled `RateLimiter` with default limits. -/
def RateLimiter.fresh : RateLimiter := ⟨true, defaultLimits, [], [], []⟩

/-- The combined system: the governor plus the `BotMetrics` instance it
holds. -/
structure Sys where
  rl : RateLimiter
  metrics : BotMetrics
deriving DecidableEq

/-- A fresh system (enabled governor, default limits, empty metrics). -/
def Sys.fresh (t0 : Int) : Sys := ⟨RateLimiter.fresh, BotMetrics.fresh t0⟩

/-- The decision object returned by `RateLimiter.checkRateLimit`
(`message`, `current` and `limits` are echoes of configuration and of the
`RateCheck` fields and are omitted). -/
structure Decision where
  allowed : Bool
  reason : Option String
  retryAfter : Option Int
  warning : Option Warning
deriving DecidableEq

/-- `RateLimiter.checkRateLimit(chatId, chatType)` at time `now`
(`chatKey = String(chatId)`; `chatId` is already a string here).  Checks
run in source order: disabled bypass, active penalty, global limits, the
per-chat window check delegated to `BotMetrics.checkRateLimit`,
rapid-fire detection (which arms a penalty), then the allow path with
global tracking and the warning check. -/
def Sys.checkRateLimit (s : Sys) (chatId chatType : String) (now : Int) :
    Decision × Sys :=
  if !s.rl.enabled then
    (⟨true, some "rate_limiting_disabled", none, none⟩, s)
  else
    let chatKey := chatId
    let pr := checkChatPenalty s.rl.chatPenalties chatKey now
    let rl1 := { s.rl with chatPenalties := pr.2 }
    if pr.1.penalized then
      (⟨false, some "penalty", some pr.1.remainingMs, none⟩, ⟨rl1, s.metrics⟩)
    else
      let gc := checkGlobalLimits rl1.limits.global rl1.globalRequestTimes now
      let rl2 := { rl1 with globalRequestTimes := gc.2 }
      if !gc.1.allowed then
        (⟨false, some "global_limit", some 60000, none⟩, ⟨rl2, s.metrics⟩)
      else
        let rateCheck := s.metrics.checkRateLimit chatId chatType now
        if !rateCheck.allowed then
          let isMinuteLimit := rateCheck.requestsLastMinute ≥ rateCheck.limitsPerMinute
          let remaining : Int :=
            if isMinuteLimit then 60 - (now % 60000) / 1000
            else 3600 - (now % 3600000) / 1000
          (⟨false, some "rate_limit", some (remaining * 1000), none⟩,
            ⟨rl2, s.metrics⟩)
        else
          if !checkRapidFire s.metrics.store chatKey now then
            let pen3 := applyPenalty rl2.chatPenalties s.metrics.store chatKey
              "rapid_fire" now
            let rl3 := { rl2 with chatPenalties := pen3 }
            (⟨false, some "rapid_fire", some 60000, none⟩, ⟨rl3, s.metrics⟩)
          else
            let gt4 := updateGlobalTracking rl2.globalRequestTimes now
            let rl4 := { rl2 with globalRequestTimes := gt4 }
            let wr := checkForWarnings rl4.limits rl4.chatWarnings chatKey
              rateCheck chatType now
            let rl5 := { rl4 with chatWarnings := wr.2 }
            (⟨true, none, none, wr.1⟩, ⟨rl5, s.metrics⟩)

/-- `RateLimiter.onRequestFailed` at time `now`: apply a
consecutive-failures penalty when the chat has at least 3 recent failures
in the store. -/
def Sys.onRequestFailed (s : Sys) (chatId : String) (now : Int) : Sys :=
  let chatKey := chatId
  if getRecentFailuresCount s.metrics.store chatKey now ≥ 3 then
    let pen := applyPenalty s.rl.chatPenalties s.metrics.store chatKey
      "consecutive_failures" now
    ⟨{ s.rl with chatPenalties := pen }, s.metrics⟩
  else s

/-- `RateLimiter.onRequestSuccess`: drop the chat's warning entry. -/
def Sys.onRequestSuccess (s : Sys) (chatId : String) : Sys :=
  ⟨{ s.rl with chatWarnings := eraseA s.rl.chatWarnings chatId }, s.metrics⟩

/-- The failure path of the message handler (`bot.js`): the failed
attempt is recorded in the metrics first, then
`rateLimiter.onRequestFailed` runs. -/
def Sys.failOp (s : Sys) (chatId chatType platform : String)
    (chatName : Option String) (t : Int) : Sys :=
  let m := s.metrics.recordRequest chatId chatType platform false chatName t
  Sys.onRequestFailed ⟨s.rl, m⟩ chatId t

/-- Fold a list of request events into a `MetricsStore` via `addRequest`,
starting empty: the store reached by a sequence of `Record` calls. -/
def applyEvents (evs : List RequestEvent) : MetricsStore :=
  evs.foldl MetricsStore.addRequest MetricsStore.empty

/-- Modelled from the spec (§4.1 `CountInWindow` correctness after
eviction): the count a windowed request query would return had no ring
eviction occurred, i.e. over every recorded event.  Used only to compare
the store against the spec's required invariant. -/
def recentCountNoEvict (evs : List RequestEvent) (minutesBack : Nat)
    (now : Int) : Nat :=
  (evs.filter (fun e => decide (e.timestamp > now - minutesBack * 60000))).length

/-- Modelled from the spec (§4.1): the failure count a windowed query
would return had no ring eviction occurred. -/
def failuresNoEvict (evs : List RequestEvent) (minutesBack : Nat)
    (now : Int) : Nat :=
  (evs.filter (fun e =>
    decide (e.timestamp > now - minutesBack * 60000) && !e.isSuccess)).length

/-- The two write operations of the `BotMetrics` API. -/
inductive MOp where
  | record (chatId chatType platform : String) (isSuccess : Bool)
      (chatName : Option String) (t : Int)
  | download (chatId platform : String) (latencyMs fileSizeBytes : Int)
      (error : Option String) (t : Int)

def applyMOp (m : BotMetrics) : MOp → BotMetrics
  | .record cid ct p suc name t => m.recordRequest cid ct p suc name t
  | .download cid p lat fs err t => m.recordDownloadMetrics cid p lat fs err t

def applyMOps (m : BotMetrics) (ops : List MOp) : BotMetrics :=
  ops.foldl applyMOp m

/-- Number of `recordRequest` operations in a batch. -/
def recCount (ops : List MOp) : Nat :=
  ops.countP (fun op => match op with | .record .. => true | .download .. => false)

/-- Number of `recordDownloadMetrics` operations in a batch. -/
def perfCount (ops : List MOp) : Nat :=
  ops.countP (fun op => match op with | .record .. => false | .download .. => true)

/-- A request operation whose platform and chat type are within the sets
the counter objects are initialised with (the values the bot produces). -/
def MOp.ok : MOp → Prop
  | .record _ ct p _ _ _ =>
      (p = "instagram" ∨ p = "tiktok" ∨ p = "facebook") ∧
      (ct = "private" ∨ ct = "group" ∨ ct = "supergroup")
  | .download .. => True

instance : DecidablePred MOp.ok := fun op => by
  cases op <;> simp only [MOp.ok] <;> infer_instance

/-- A run of consecutive `Decide` (`checkRateLimit`) calls for one chat:
each list entry is the chat type and clock of one call; the output pairs
each call with its decision. -/
def runD (s : Sys) (chatId : String) :
    List (String × Int) → List (String × Int × Decision)
  | [] => []
  | (ct, t) :: rest =>
    let r := s.checkRateLimit chatId ct t
    (ct, t, r.1) :: runD r.2 chatId rest

/-- The time of the `i`-th call of a run when that call attached a
warning to its decision, else `none`. -/
def warnTimeAt (l : List (String × Int × Decision)) (i : Nat) : Option Int :=
  match l[i]? with
  | some (_, t, d) => if d.warning.isSome then some t else none
  | none => none

/-- `totalRequests == successfulRequests + failedRequests` for one
aggregate. -/
def aggBalanced (m : ChatMetric) : Prop :=
  m.totalRequests = m.successfulRequests + m.failedRequests

/-- `sum(platformBreakdown.values())`. -/
def pbSum (pb : PlatformBreakdown) : Nat :=
  pb.instagram + pb.tiktok + pb.facebook

/-! ### Association-list toolkit lemmas -/

theorem updateA_cons {β : Type} (k1 : String) (v : β) (rest : List (String × β))
    (k : String) (f : β → β) :
    updateA ((k1, v) :: rest) k f =
      (if k1 = k then (k1, f v) else (k1, v)) :: updateA rest k f := by
  simp only [updateA, List.map_cons]

theorem lookupA_cons {β : Type} (k1 : String) (v : β) (rest : List (String × β))
    (k : String) :
    lookupA ((k1, v) :: rest) k = if k1 = k then some v else lookupA rest k := rfl

theorem lookupA_updateA_self {β : Type} (l : List (String × β)) (k : String)
    (f : β → β) :
    lookupA (updateA l k f) k = (lookupA l k).map f := by
  induction l with
  | nil => rfl
  | cons kv rest ih =>
    obtain ⟨k1, v⟩ := kv
    by_cases h1 : k1 = k
    · subst h1
      simp [updateA_cons, lookupA_cons]
    · simp [updateA_cons, lookupA_cons, h1, ih]

theorem lookupA_updateA_ne {β : Type} (l : List (String × β)) (k k2 : String)
    (f : β → β) (hne : k2 ≠ k) :
    lookupA (updateA l k f) k2 = lookupA l k2 := by
  induction l with
  | nil => rfl
  | cons kv rest ih =>
    obtain ⟨k1, v⟩ := kv
    by_cases h1 : k1 = k
    · subst h1
      have h2 : k1 ≠ k2 := fun h => hne h.symm
      simp [updateA_cons, lookupA_cons, h2, ih]
    · by_cases h2 : k1 = k2 <;>
        simp [updateA_cons, lookupA_cons, h1, h2, hne, ih]

theorem lookupA_append {β : Type} (l1 l2 : List (String × β)) (k : String) :
    lookupA (l1 ++ l2) k = ((lookupA l1 k).or (lookupA l2 k)) := by
  induction l1 with
  | nil => simp [lookupA]
  | cons kv rest ih =>
    obtain ⟨k1, v⟩ := kv
    by_cases h : k1 = k <;> simp [lookupA_cons, h, ih]

theorem lookupA_setA_self {β : Type} (l : List (String × β)) (k : String)
    (v : β) : lookupA (setA l k v) k = some v := by
  unfold setA
  split
  · next h =>
    rw [lookupA_updateA_self]
    obtain ⟨v0, hv0⟩ := Option.isSome_iff_exists.mp h
    simp [hv0]
  · next h =>
    rw [Option.not_isSome_iff_eq_none] at h
    rw [lookupA_append, h]
    simp [lookupA_cons]

theorem lookupA_setA_ne {β : Type} (l : List (String × β)) (k k2 : String)
    (v : β) (hne : k2 ≠ k) : lookupA (setA l k v) k2 = lookupA l k2 := by
  unfold setA
  split
  · exact lookupA_updateA_ne l k k2 _ hne
  · rw [lookupA_append]
    have h2 : k ≠ k2 := fun h => hne h.symm
    simp only [lookupA_append, lookupA_cons, if_neg h2, lookupA]
    cases lookupA l k2 <;> simp

theorem eraseA_cons {β : Type} (k1 : String) (v : β) (rest : List (String × β))
    (k : String) :
    eraseA ((k1, v) :: rest) k =
      if k1 = k then eraseA rest k else (k1, v) :: eraseA rest k := by
  simp only [eraseA, List.filter_cons]
  split <;> split <;> simp_all

theorem lookupA_eraseA_self {β : Type} (l : List (String × β)) (k : String) :
    lookupA (eraseA l k) k = none := by
  induction l with
  | nil => rfl
  | cons kv rest ih =>
    obtain ⟨k1, v⟩ := kv
    rw [eraseA_cons]
    by_cases h : k1 = k <;> simp [lookupA_cons, h, ih]

theorem lookupA_eraseA_ne {β : Type} (l : List (String × β)) (k k2 : String)
    (hne : k2 ≠ k) : lookupA (eraseA l k) k2 = lookupA l k2 := by
  induction l with
  | nil => rfl
  | cons kv rest ih =>
    obtain ⟨k1, v⟩ := kv
    by_cases h : k1 = k
    · subst h
      have h2 : k1 ≠ k2 := fun h => hne h.symm
      simp [eraseA_cons, lookupA_cons, h2, ih]
    · by_cases h2 : k1 = k2 <;>
        simp [eraseA_cons, lookupA_cons, h, h2, hne, ih]

theorem lookupA_mem {β : Type} {l : List (String × β)} {k : String} {v : β}
    (h : lookupA l k = some v) : (k, v) ∈ l := by
  induction l with
  | nil => simp [lookupA] at h
  | cons kv rest ih =>
    obtain ⟨k1, v1⟩ := kv
    rw [lookupA_cons] at h
    by_cases hk : k1 = k
    · subst hk
      rw [if_pos rfl] at h
      obtain rfl : v1 = v := by injection h
      exact List.mem_cons_self _ _
    · rw [if_neg hk] at h
      exact List.mem_cons_of_mem _ (ih h)

/-! ### C1 — per-chat limit scenario -/

/-- A fresh governor (default limits: private 10/minute, 100/hour) whose
metrics recorded 10 admitted requests for chat "A" within a 5-second
span (timestamps 1000..1009). -/
def sysTenRequests : Sys :=
  ⟨RateLimiter.fresh,
    ([1000, 1001, 1002, 1003, 1004, 1005, 1006, 1007, 1008, 1009] :
        List Int).foldl
      (fun m t => m.recordRequest "A" "private" "instagram" true none t)
      (BotMetrics.fresh 0)⟩

/-- C1: the spec's scenario — private limits `{perMinute: 10, perHour:
100}`, 10 admitted requests for "A" within 5 seconds — does NOT produce a
`rate_limit` denial on the 11th `Decide` call within the same minute.
The per-chat check passes (10 requests are compared against the hardcoded
`BotMetrics.rateLimits.perMinute = 60`, not the configured private limit
10), and the call instead denies as `rapid_fire`. -/
theorem c1_rate_limit_scenario :
    sysTenRequests.rl.limits.priv.perMinute = 10 ∧
    sysTenRequests.rl.limits.priv.perHour = 100 ∧
    (sysTenRequests.metrics.checkRateLimit "A" "private" 10000).requestsLastMinute = 10 ∧
    (sysTenRequests.metrics.checkRateLimit "A" "private" 10000).limitsPerMinute = 60 ∧
    (sysTenRequests.metrics.checkRateLimit "A" "private" 10000).allowed = true ∧
    (sysTenRequests.checkRateLimit "A" "private" 10000).1.allowed = false ∧
    (sysTenRequests.checkRateLimit "A" "private" 10000).1.reason = some "rapid_fire" ∧
    (sysTenRequests.checkRateLimit "A" "private" 10000).1.reason ≠ some "rate_limit" := by
  decide

/-! ### C2 — chat aggregate invariants -/

/-- A store holding a single event whose platform ("youtube") is outside
the breakdown's key set. -/
def storeYoutube : MetricsStore :=
  MetricsStore.empty.addRequest ⟨0, "A", "private", "youtube", true, none⟩

/-- C2 counterexample: after one `addRequest` with platform "youtube",
the aggregate has `totalRequests = 1` but the platform breakdown still
sums to 0, so `totalRequests == sum(platformBreakdown.values())` fails. -/
theorem c2_counterexample :
    (storeYoutube.getChatMetrics "A").totalRequests = 1 ∧
    pbSum (storeYoutube.getChatMetrics "A").platformBreakdown = 0 ∧
    (1 : Nat) ≠ 0 := by
  decide

theorem aggBalanced_new (e : RequestEvent) : aggBalanced (newChatMetric e) := by
  simp [aggBalanced, newChatMetric]

theorem updChatMetric_counts (e : RequestEvent) (m : ChatMetric) :
    (updChatMetric e m).totalRequests = m.totalRequests + 1 ∧
    (updChatMetric e m).successfulRequests =
      m.successfulRequests + (if e.isSuccess then 1 else 0) ∧
    (updChatMetric e m).failedRequests =
      m.failedRequests + (if e.isSuccess then 0 else 1) ∧
    (updChatMetric e m).platformBreakdown =
      bumpPlatform m.platformBreakdown e.platform := by
  unfold updChatMetric
  rcases e.chatName with _ | s <;> rcases e.isSuccess <;>
    by_cases ht : e.chatType = "" <;> simp [ht] <;> split <;> simp

theorem aggBalanced_upd (e : RequestEvent) (m : ChatMetric)
    (h : aggBalanced m) : aggBalanced (updChatMetric e m) := by
  obtain ⟨h1, h2, h3, _⟩ := updChatMetric_counts e m
  unfold aggBalanced at *
  rw [h1, h2, h3]
  cases e.isSuccess <;> simp <;> omega

theorem pbSum_bump_known (pb : PlatformBreakdown) (p : String)
    (h : p = "instagram" ∨ p = "tiktok" ∨ p = "facebook") :
    pbSum (bumpPlatform pb p) = pbSum pb + 1 := by
  rcases h with h | h | h <;> subst h <;> simp [bumpPlatform, pbSum] <;> omega

/-- `totalRequests == sum(platformBreakdown.values())` for one
aggregate. -/
def aggPlatTotal (m : ChatMetric) : Prop :=
  m.totalRequests = pbSum m.platformBreakdown

theorem aggPlatTotal_new (e : RequestEvent) : aggPlatTotal (newChatMetric e) := by
  simp [aggPlatTotal, newChatMetric, pbSum]

theorem aggPlatTotal_upd (e : RequestEvent) (m : ChatMetric)
    (hp : e.platform = "instagram" ∨ e.platform = "tiktok" ∨ e.platform = "facebook")
    (h : aggPlatTotal m) : aggPlatTotal (updChatMetric e m) := by
  obtain ⟨h1, _, _, h4⟩ := updChatMetric_counts e m
  unfold aggPlatTotal at *
  rw [h1, h4, pbSum_bump_known _ _ hp, h]

theorem addRequest_agg_preserved {P : ChatMetric → Prop} (s : MetricsStore)
    (e : RequestEvent) (hnew : P (newChatMetric e))
    (hupd : ∀ m, P m → P (updChatMetric e m))
    (hs : ∀ kv ∈ s.chatMetrics, P kv.2) :
    ∀ kv ∈ (s.addRequest e).chatMetrics, P kv.2 := by
  intro kv hkv
  have hkv2 : kv ∈ updateA
      (if (lookupA s.chatMetrics e.chatId).isSome then s.chatMetrics
       else s.chatMetrics ++ [(e.chatId, newChatMetric e)])
      e.chatId (updChatMetric e) := by
    simpa [MetricsStore.addRequest] using hkv
  rw [updateA, List.mem_map] at hkv2
  obtain ⟨kv0, hkv0, heq⟩ := hkv2
  have hP0 : P kv0.2 := by
    by_cases hlk : (lookupA s.chatMetrics e.chatId).isSome
    · rw [if_pos hlk] at hkv0
      exact hs kv0 hkv0
    · rw [if_neg hlk] at hkv0
      rcases List.mem_append.mp hkv0 with h | h
      · exact hs kv0 h
      · have : kv0 = (e.chatId, newChatMetric e) := by simpa using h
        rw [this]
        exact hnew
  rw [← heq]
  split
  · exact hupd _ hP0
  · exact hP0

theorem foldl_agg_preserved {P : ChatMetric → Prop} (evs : List RequestEvent)
    (hevs : ∀ e ∈ evs, P (newChatMetric e) ∧ ∀ m, P m → P (updChatMetric e m)) :
    ∀ (s : MetricsStore), (∀ kv ∈ s.chatMetrics, P kv.2) →
    ∀ kv ∈ (evs.foldl MetricsStore.addRequest s).chatMetrics, P kv.2 := by
  induction evs with
  | nil => intro s hs; exact hs
  | cons e rest ih =>
    intro s hs
    have he := hevs e (List.mem_cons_self _ _)
    exact ih (fun e2 h2 => hevs e2 (List.mem_cons_of_mem _ h2)) _
      (addRequest_agg_preserved s e he.1 he.2 hs)

/-- C2 (amended): after any sequence of `Record` (`addRequest`) calls,
every chat aggregate satisfies
`totalRequests == successfulRequests + failedRequests`, and it also
satisfies `totalRequests == sum(platformBreakdown.values())` provided
every recorded event's platform is one of instagram, tiktok, facebook
(the platforms the bot produces); an event with any other platform
string breaks the second equation (see the counterexample). -/
theorem c2_aggregate_invariants (evs : List RequestEvent) (k : String)
    (m : ChatMetric)
    (hm : lookupA (applyEvents evs).chatMetrics k = some m) :
    aggBalanced m ∧
    ((∀ e ∈ evs, e.platform = "instagram" ∨ e.platform = "tiktok" ∨
        e.platform = "facebook") → aggPlatTotal m) := by
  constructor
  · have := foldl_agg_preserved (P := aggBalanced) evs
      (fun e _ => ⟨aggBalanced_new e, fun m2 h2 => aggBalanced_upd e m2 h2⟩)
      MetricsStore.empty (by simp [MetricsStore.empty])
    exact this (k, m) (lookupA_mem hm)
  · intro hplat
    have := foldl_agg_preserved (P := aggPlatTotal) evs
      (fun e he => ⟨aggPlatTotal_new e,
        fun m2 h2 => aggPlatTotal_upd e m2 (hplat e he) h2⟩)
      MetricsStore.empty (by simp [MetricsStore.empty])
    exact this (k, m) (lookupA_mem hm)

/-- Witness for `c2_aggregate_invariants` at one instagram event. -/
theorem c2_aggregate_invariants_witness :
    aggBalanced ⟨"A", "Unknown", "private", 1, 1, 0, ⟨1, 0, 0⟩, 0, 0⟩ ∧
    ((∀ e ∈ [(⟨0, "A", "private", "instagram", true, none⟩ : RequestEvent)],
        e.platform = "instagram" ∨ e.platform = "tiktok" ∨
        e.platform = "facebook") →
      aggPlatTotal ⟨"A", "Unknown", "private", 1, 1, 0, ⟨1, 0, 0⟩, 0, 0⟩) :=
  c2_aggregate_invariants
    [⟨0, "A", "private", "instagram", true, none⟩] "A"
    ⟨"A", "Unknown", "private", 1, 1, 0, ⟨1, 0, 0⟩, 0, 0⟩ (by decide)

/-! ### C9 — top chats ordering -/

/-- Two chats with tied `totalRequests`, "B" inserted before "A". -/
def storeTie : MetricsStore :=
  (MetricsStore.empty.addRequest ⟨0, "B", "private", "instagram", true, none⟩).addRequest
    ⟨1, "A", "private", "instagram", true, none⟩

/-- C9 counterexample: both chats have `totalRequests = 1`, yet
`getTopChats` returns "B" before "A" — the tie is kept in insertion
order (JS stable sort), not broken by chatKey ascending, which would
give ["A", "B"]. -/
theorem c9_counterexample :
    (storeTie.getChatMetrics "A").totalRequests = 1 ∧
    (storeTie.getChatMetrics "B").totalRequests = 1 ∧
    ((storeTie.getTopChats 10).map (fun x => x.1.chatId)) = ["B", "A"] ∧
    (["B", "A"] : List String) ≠ ["A", "B"] := by
  decide

/-- C9 (amended): `getTopChats` returns the chat aggregates sorted by
`totalRequests` descending — ties kept in insertion order by the stable
sort, not re-ordered by chatKey — truncated to the first `n` entries. -/
theorem c9_top_chats_sorted (s : MetricsStore) (n : Nat) :
    (((s.getTopChats n).map (fun x => x.1)).Pairwise topRel) ∧
    (s.getTopChats n).length = min n s.chatMetrics.length := by
  constructor
  · have hmap : ((s.getTopChats n).map (fun x => x.1)) =
        (((s.chatMetrics.map Prod.snd).insertionSort topRel).take n) := by
      have hid : ((fun x : ChatMetric × String => x.1) ∘
          fun c => (c, successRateStr c)) = id := rfl
      simp only [MetricsStore.getTopChats, List.map_map, hid, List.map_id]
    rw [hmap]
    exact (List.sorted_insertionSort topRel _).sublist (List.take_sublist _ _)
  · have hlen : ((s.chatMetrics.map Prod.snd).insertionSort topRel).length =
        s.chatMetrics.length := by
      rw [(List.perm_insertionSort topRel _).length_eq, List.length_map]
    simp [MetricsStore.getTopChats, List.length_take, hlen]

/-! ### C10 — unknown chat aggregate -/

/-- C10: for a chat key absent from the aggregate index,
`getChatMetrics` returns the zero-valued aggregate — all counters and the
platform breakdown zero, `firstSeen`/`lastSeen` null — whose
`successRate` is the string "0.00"; whereas `getGlobalMetrics` uses the
number `100` as `successRate` when its total is zero, a different
value. -/
theorem c10_unknown_chat (s : MetricsStore) (k : String) (m : BotMetrics)
    (now : Int) (hk : lookupA s.chatMetrics k = none)
    (hm : m.counters.totalRequests = 0) :
    s.getChatMetrics k = zeroChatView k ∧
    (s.getChatMetrics k).successRate = "0.00" ∧
    (m.getGlobalMetrics now).performance.successRate = StrOrNum.num 100 ∧
    StrOrNum.str (s.getChatMetrics k).successRate ≠
      (m.getGlobalMetrics now).performance.successRate := by
  have h1 : s.getChatMetrics k = zeroChatView k := by
    simp [MetricsStore.getChatMetrics, hk]
  have h2 : (m.getGlobalMetrics now).performance.successRate = .num 100 := by
    simp [BotMetrics.getGlobalMetrics, hm]
  refine ⟨h1, by rw [h1]; rfl, h2, ?_⟩
  rw [h1, h2]
  simp [zeroChatView]

/-- Witness for `c10_unknown_chat` on an empty store. -/
theorem c10_unknown_chat_witness :
    MetricsStore.empty.getChatMetrics "A" = zeroChatView "A" ∧
    (MetricsStore.empty.getChatMetrics "A").successRate = "0.00" ∧
    ((BotMetrics.fresh 0).getGlobalMetrics 3).performance.successRate =
      StrOrNum.num 100 ∧
    StrOrNum.str (MetricsStore.empty.getChatMetrics "A").successRate ≠
      ((BotMetrics.fresh 0).getGlobalMetrics 3).performance.successRate :=
  c10_unknown_chat MetricsStore.empty "A" (BotMetrics.fresh 0) 3
    (by decide) (by decide)

/-! ### C3 — consecutive failures arm a penalty -/

theorem addRequest_requests_of_le (s : MetricsStore) (e : RequestEvent)
    (h : s.requests.length + 1 ≤ 10000) :
    (s.addRequest e).requests = s.requests ++ [e] := by
  have hcond : ¬((s.requests ++ [e]).length > 10000) := by
    simp
    omega
  show (if (s.requests ++ [e]).length > 10000
      then (s.requests ++ [e]).drop ((s.requests ++ [e]).length - 5000)
      else s.requests ++ [e]) = s.requests ++ [e]
  rw [if_neg hcond]

theorem consecutiveFailuresDuration_pos (n : Nat) :
    0 < consecutiveFailuresDuration n := by
  unfold consecutiveFailuresDuration
  split
  · norm_num
  · split
    · norm_num
    · split <;> norm_num

/-- `failOp` leaves the metrics at the state produced by the embedded
`recordRequest` (the governor's `onRequestFailed` never touches them). -/
theorem failOp_metrics (s : Sys) (k ct p : String) (n : Option String)
    (t : Int) :
    (s.failOp k ct p n t).metrics =
      s.metrics.recordRequest k ct p false n t := by
  simp only [Sys.failOp, Sys.onRequestFailed]
  split <;> rfl

/-- When the store (after recording) holds at least 3 recent failures for
the chat, `failOp` installs a `consecutive_failures` penalty ending
strictly after `t`. -/
theorem failOp_penalized (s : Sys) (k ct p : String) (n : Option String)
    (t : Int)
    (h3 : 3 ≤ getRecentFailuresCount
      (s.metrics.recordRequest k ct p false n t).store k t) :
    ∃ pen : Penalty,
      lookupA (s.failOp k ct p n t).rl.chatPenalties k = some pen ∧
      t < pen.untilMs ∧ pen.reason = "consecutive_failures" := by
  unfold Sys.failOp Sys.onRequestFailed
  rw [if_pos h3]
  unfold applyPenalty
  rw [if_pos rfl]
  refine ⟨_, lookupA_setA_self _ _ _, ?_, rfl⟩
  show t < t + consecutiveFailuresDuration (getRecentFailuresCount
    (s.metrics.recordRequest k ct p false n t).store k t)
  have := consecutiveFailuresDuration_pos (getRecentFailuresCount
    (s.metrics.recordRequest k ct p false n t).store k t)
  omega

/-- Three recent failure events for the chat force the windowed failure
count to at least 3. -/
theorem recentFailures_ge_three (s : MetricsStore)
    (l : List RequestEvent) (e1 e2 e3 : RequestEvent) (k : String) (now : Int)
    (hreq : s.requests = l ++ [e1, e2, e3])
    (h1 : e1.chatId = k ∧ e1.isSuccess = false ∧ now - 600000 < e1.timestamp)
    (h2 : e2.chatId = k ∧ e2.isSuccess = false ∧ now - 600000 < e2.timestamp)
    (h3 : e3.chatId = k ∧ e3.isSuccess = false ∧ now - 600000 < e3.timestamp) :
    3 ≤ getRecentFailuresCount s k now := by
  unfold getRecentFailuresCount MetricsStore.getRecentFailures
  rw [hreq]
  obtain ⟨ha1, hb1, hc1⟩ := h1
  obtain ⟨ha2, hb2, hc2⟩ := h2
  obtain ⟨ha3, hb3, hc3⟩ := h3
  have hw : ((10 : Nat) * 60000 : Int) = 600000 := by norm_num
  simp only [List.filter_append, List.length_append, List.filter_cons,
    List.filter_nil, hw, ha1, hb1, ha2, hb2, ha3, hb3]
  simp [hc1, hc2, hc3, ha1, ha2, ha3, hb1, hb2, hb3]

/-- C3 (amended): after `OnFailure` runs three times back-to-back for a
chat within a 10-minute window (each failure recorded first, as the
bot's handler does, with no other recordings in between and at most 9997
events already stored — so the size-based ring eviction cannot remove
any of the three failure events), an active penalty entry for the chat
exists immediately after the third call.  With interleaved traffic the
eviction can defeat the count: see the counterexample. -/
theorem c3_three_failures_penalized (s : Sys)
    (k ct1 ct2 ct3 p1 p2 p3 : String) (n1 n2 n3 : Option String)
    (t1 t2 t3 : Int) (h12 : t1 ≤ t2) (h23 : t2 ≤ t3)
    (hwin : t3 - 600000 < t1)
    (hlen : s.metrics.store.requests.length ≤ 9997) :
    ∃ pen : Penalty,
      lookupA (((s.failOp k ct1 p1 n1 t1).failOp k ct2 p2 n2 t2).failOp
        k ct3 p3 n3 t3).rl.chatPenalties k = some pen ∧
      t3 < pen.untilMs := by
  set e1 : RequestEvent := ⟨t1, k, ct1, p1, false, n1⟩ with he1
  set e2 : RequestEvent := ⟨t2, k, ct2, p2, false, n2⟩ with he2
  set e3 : RequestEvent := ⟨t3, k, ct3, p3, false, n3⟩ with he3
  set s1 := s.failOp k ct1 p1 n1 t1 with hs1
  set s2 := s1.failOp k ct2 p2 n2 t2 with hs2
  have hr1 : s1.metrics.store.requests = s.metrics.store.requests ++ [e1] := by
    rw [hs1, failOp_metrics]
    exact addRequest_requests_of_le _ _ (by omega)
  have hr2 : s2.metrics.store.requests =
      s.metrics.store.requests ++ [e1] ++ [e2] := by
    rw [hs2, failOp_metrics]
    show (s1.metrics.store.addRequest e2).requests = _
    rw [addRequest_requests_of_le _ _ (by rw [hr1]; simp; omega), hr1]
  have hr3 : (s2.metrics.recordRequest k ct3 p3 false n3 t3).store.requests =
      s.metrics.store.requests ++ [e1, e2, e3] := by
    show (s2.metrics.store.addRequest e3).requests = _
    rw [addRequest_requests_of_le _ _ (by rw [hr2]; simp; omega), hr2]
    simp
  have hcount : 3 ≤ getRecentFailuresCount
      (s2.metrics.recordRequest k ct3 p3 false n3 t3).store k t3 :=
    recentFailures_ge_three _ _ e1 e2 e3 k t3 hr3
      ⟨rfl, rfl, by simp [he1] <;> omega⟩
      ⟨rfl, rfl, by simp [he2] <;> omega⟩
      ⟨rfl, rfl, by simp [he3] <;> omega⟩
  obtain ⟨pen, hpen, hlt, _⟩ := failOp_penalized s2 k ct3 p3 n3 t3 hcount
  exact ⟨pen, hpen, hlt⟩

/-- Witness for `c3_three_failures_penalized`: a fresh system with three
failures at t = 0, 1, 2. -/
theorem c3_three_failures_penalized_witness :
    ∃ pen : Penalty,
      lookupA ((((Sys.fresh 0).failOp "A" "private" "instagram" none 0).failOp
        "A" "private" "instagram" none 1).failOp
        "A" "private" "instagram" none 2).rl.chatPenalties "A" = some pen ∧
      (2 : Int) < pen.untilMs :=
  c3_three_failures_penalized (Sys.fresh 0) "A" "private" "private" "private"
    "instagram" "instagram" "instagram" none none none 0 1 2
    (by decide) (by decide) (by decide) (by decide)

/-! ### C4 — rapid-fire detection -/

/-- Metrics with requests for "A" at t = 0 and five more at
50000..50004: five admitted requests within a 10-second span, plus one
older request still inside the one-minute lookback. -/
def sysRapidPlusOld : Sys :=
  ⟨RateLimiter.fresh,
    ([0, 50000, 50001, 50002, 50003, 50004] : List Int).foldl
      (fun m t => m.recordRequest "A" "private" "instagram" true none t)
      (BotMetrics.fresh 0)⟩

/-- C4 counterexample: chat "A" has 5 admitted requests within a
10-second span (50000..50004), no penalty, and passes the global and
per-chat checks — yet the next `Decide` call (t = 50005) is allowed and
arms no penalty, because `checkRapidFire` spans min/max over ALL of the
chat's last-minute requests, and the extra request at t = 0 stretches
that span to 50004 ms ≥ 10000 ms. -/
theorem c4_counterexample :
    ([50000, 50001, 50002, 50003, 50004] : List Int) ⊆
      chatRecentTimestamps sysRapidPlusOld.metrics.store "A" 50005 ∧
    lookupA sysRapidPlusOld.rl.chatPenalties "A" = none ∧
    (sysRapidPlusOld.checkRateLimit "A" "private" 50005).1.allowed = true ∧
    (sysRapidPlusOld.checkRateLimit "A" "private" 50005).1.reason ≠
      some "rapid_fire" ∧
    lookupA (sysRapidPlusOld.checkRateLimit "A" "private"
      50005).2.rl.chatPenalties "A" = none := by
  decide

/-- C4 (amended): if the chat's requests within the store's last minute
number at least 5 and ALL of them fall within a 10-second span (newest
minus oldest under 10000 ms) — not merely some 5 of them — then, absent
penalty, global-limit and per-chat-limit denial, `Decide` returns
`allowed = false` with reason `rapid_fire` and installs a one-minute
rapid-fire penalty for the chat. -/
theorem c4_rapid_fire (s : Sys) (k ct : String) (now : Int)
    (hen : s.rl.enabled = true)
    (hpen : (checkChatPenalty s.rl.chatPenalties k now).1.penalized = false)
    (hgl : (checkGlobalLimits s.rl.limits.global s.rl.globalRequestTimes
      now).1.allowed = true)
    (hmc : (s.metrics.checkRateLimit k ct now).allowed = true)
    (hn : 5 ≤ (chatRecentTimestamps s.metrics.store k now).length)
    (hspan : ((chatRecentTimestamps s.metrics.store k now).max?.getD 0) -
        ((chatRecentTimestamps s.metrics.store k now).min?.getD 0) < 10000) :
    (s.checkRateLimit k ct now).1.allowed = false ∧
    (s.checkRateLimit k ct now).1.reason = some "rapid_fire" ∧
    ∃ pen : Penalty,
      lookupA (s.checkRateLimit k ct now).2.rl.chatPenalties k = some pen ∧
      pen.reason = "rapid_fire" ∧ pen.untilMs = now + 60000 := by
  have hrf : checkRapidFire s.metrics.store k now = false := by
    unfold checkRapidFire
    rw [if_pos hn]
    simp [hspan]
  simp only [Sys.checkRateLimit, hen, Bool.not_true, Bool.false_eq_true,
    if_false, hpen, hgl, hmc, hrf, Bool.not_false, if_true]
  refine ⟨trivial, trivial, ⟨"rapid_fire", now, now + 60000⟩, ?_, rfl, rfl⟩
  unfold applyPenalty
  have hne : ("rapid_fire" : String) ≠ "consecutive_failures" := by decide
  rw [if_neg hne, if_pos rfl]
  exact lookupA_setA_self _ _ _

/-- Witness system for `c4_rapid_fire`: exactly five requests for "A",
all within 5 ms. -/
def sysRapid : Sys :=
  ⟨RateLimiter.fresh,
    ([50000, 50001, 50002, 50003, 50004] : List Int).foldl
      (fun m t => m.recordRequest "A" "private" "instagram" true none t)
      (BotMetrics.fresh 0)⟩

/-- Witness for `c4_rapid_fire`. -/
theorem c4_rapid_fire_witness :
    (sysRapid.checkRateLimit "A" "private" 50005).1.allowed = false ∧
    (sysRapid.checkRateLimit "A" "private" 50005).1.reason =
      some "rapid_fire" ∧
    ∃ pen : Penalty,
      lookupA (sysRapid.checkRateLimit "A" "private"
        50005).2.rl.chatPenalties "A" = some pen ∧
      pen.reason = "rapid_fire" ∧ pen.untilMs = 50005 + 60000 :=
  c4_rapid_fire sysRapid "A" "private" 50005 (by decide) (by decide)
    (by decide) (by decide) (by decide) (by decide)

/-! ### C7 — penalty denial and expiry -/

/-- C7: while a chat's penalty is active (`now < until`), every `Decide`
call is denied with reason `penalty` and `retryAfter = until - now`; the
first `Decide` call at or after expiry is allowed, absent other limits
(global, per-chat and rapid-fire checks passing). -/
theorem c7_penalty_until_expiry (s : Sys) (k ct1 ct2 : String) (p : Penalty)
    (now1 now2 : Int) (hen : s.rl.enabled = true)
    (hp : lookupA s.rl.chatPenalties k = some p)
    (h1 : now1 < p.untilMs) (h2 : p.untilMs ≤ now2)
    (hgl : (checkGlobalLimits s.rl.limits.global s.rl.globalRequestTimes
      now2).1.allowed = true)
    (hmc : (s.metrics.checkRateLimit k ct2 now2).allowed = true)
    (hrf : checkRapidFire s.metrics.store k now2 = true) :
    ((s.checkRateLimit k ct1 now1).1.allowed = false ∧
     (s.checkRateLimit k ct1 now1).1.reason = some "penalty" ∧
     (s.checkRateLimit k ct1 now1).1.retryAfter = some (p.untilMs - now1)) ∧
    (s.checkRateLimit k ct2 now2).1.allowed = true := by
  have hcp1 : checkChatPenalty s.rl.chatPenalties k now1 =
      (⟨true, some p.reason, p.untilMs - now1⟩, s.rl.chatPenalties) := by
    unfold checkChatPenalty
    rw [hp]
    simp [h1]
  have hcp2 : checkChatPenalty s.rl.chatPenalties k now2 =
      (⟨false, none, 0⟩, eraseA s.rl.chatPenalties k) := by
    unfold checkChatPenalty
    rw [hp]
    have h2x : ¬(now2 < p.untilMs) := by omega
    simp [h2x]
  constructor
  · simp [Sys.checkRateLimit, hen, hcp1]
  · simp [Sys.checkRateLimit, hen, hcp2, hgl, hmc, hrf]

/-- A fresh system whose chat "A" is under a rapid-fire penalty until
t = 1000. -/
def sysPenalized : Sys :=
  ⟨{ RateLimiter.fresh with
      chatPenalties := [("A", ⟨"rapid_fire", 0, 1000⟩)] },
    BotMetrics.fresh 0⟩

/-- Witness for `c7_penalty_until_expiry` at now = 500 and now = 1000. -/
theorem c7_penalty_until_expiry_witness :
    ((sysPenalized.checkRateLimit "A" "private" 500).1.allowed = false ∧
     (sysPenalized.checkRateLimit "A" "private" 500).1.reason =
       some "penalty" ∧
     (sysPenalized.checkRateLimit "A" "private" 500).1.retryAfter =
       some ((1000 : Int) - 500)) ∧
    (sysPenalized.checkRateLimit "A" "private" 1000).1.allowed = true :=
  c7_penalty_until_expiry sysPenalized "A" "private" "private"
    ⟨"rapid_fire", 0, 1000⟩ 500 1000 (by decide) (by decide) (by decide)
    (by decide) (by decide) (by decide) (by decide)

/-! ### C5 — ring eviction vs. windowed queries -/

/-- The single event used to exercise the eviction cap. -/
def evFill : RequestEvent := ⟨0, "A", "private", "instagram", true, none⟩

theorem filter_replicate_eq {α : Type} (p : α → Bool) (a : α) (n : Nat) :
    (List.replicate n a).filter p =
      if p a then List.replicate n a else [] := by
  induction n with
  | zero => simp
  | succ m ih =>
    simp only [List.replicate_succ, List.filter_cons, ih]
    split <;> simp_all

theorem drop_replicate_eq {α : Type} (a : α) :
    ∀ (m n : Nat), (List.replicate n a).drop m = List.replicate (n - m) a := by
  intro m
  induction m with
  | zero => simp
  | succ m2 ih =>
    intro n
    cases n with
    | zero => simp
    | succ n2 =>
      rw [List.replicate_succ, List.drop_succ_cons, ih,
        Nat.succ_sub_succ]

theorem applyEvents_replicate_requests (n : Nat) (h : n ≤ 10000) :
    (applyEvents (List.replicate n evFill)).requests =
      List.replicate n evFill := by
  induction n with
  | zero => rfl
  | succ m ih =>
    have ihm := ih (by omega)
    have hlen :
        (applyEvents (List.replicate m evFill)).requests.length + 1 ≤ 10000 := by
      rw [ihm]
      simp only [List.length_replicate]
      omega
    calc (applyEvents (List.replicate (m + 1) evFill)).requests
        = ((applyEvents (List.replicate m evFill)).addRequest evFill).requests := by
          rw [List.replicate_succ']
          unfold applyEvents
          rw [List.foldl_append]
          simp only [List.foldl_cons, List.foldl_nil]
      _ = (applyEvents (List.replicate m evFill)).requests ++ [evFill] :=
          addRequest_requests_of_le _ _ hlen
      _ = List.replicate m evFill ++ [evFill] := by rw [ihm]
      _ = List.replicate (m + 1) evFill := (List.replicate_succ' m evFill).symm

theorem addRequest_requests_of_gt (s : MetricsStore) (e : RequestEvent)
    (h : 10000 < s.requests.length + 1) :
    (s.addRequest e).requests =
      (s.requests ++ [e]).drop (s.requests.length + 1 - 5000) := by
  have hcond : (s.requests ++ [e]).length > 10000 := by
    simp
    omega
  show (if (s.requests ++ [e]).length > 10000
      then (s.requests ++ [e]).drop ((s.requests ++ [e]).length - 5000)
      else s.requests ++ [e]) = _
  rw [if_pos hcond]
  congr 2
  simp

theorem applyEvents_replicate_evicted :
    (applyEvents (List.replicate 10001 evFill)).requests =
      List.replicate 5000 evFill := by
  have h10 := applyEvents_replicate_requests 10000 (by omega)
  have hstep : applyEvents (List.replicate 10001 evFill) =
      (applyEvents (List.replicate 10000 evFill)).addRequest evFill := by
    rw [show (10001 : Nat) = 10000 + 1 by norm_num, List.replicate_succ']
    unfold applyEvents
    rw [List.foldl_append]
    simp only [List.foldl_cons, List.foldl_nil]
  have hbound :
      10000 < (applyEvents (List.replicate 10000 evFill)).requests.length + 1 := by
    rw [h10, List.length_replicate]
    omega
  rw [hstep, addRequest_requests_of_gt _ _ hbound, h10,
    List.length_replicate, ← List.replicate_succ', drop_replicate_eq]

/-- C5 counterexample: record the same timestamp-0 event 10001 times.
Eviction keeps only the newest 5000 even though every evicted event has
the same timestamp as the newest stored event (certainly newer than one
hour before it), and the one-hour windowed query returns 5000 instead of
the no-eviction count 10001. -/
theorem c5_counterexample :
    ((applyEvents (List.replicate 10001 evFill)).getRecentRequests 60
      0).length = 5000 ∧
    recentCountNoEvict (List.replicate 10001 evFill) 60 0 = 10001 ∧
    (5000 : Nat) ≠ 10001 := by
  refine ⟨?_, ?_, by omega⟩
  · unfold MetricsStore.getRecentRequests
    rw [applyEvents_replicate_evicted, filter_replicate_eq,
      if_pos (by decide), List.length_replicate]
  · unfold recentCountNoEvict
    rw [filter_replicate_eq, if_pos (by decide), List.length_replicate]

theorem foldl_addRequest_requests (evs : List RequestEvent) :
    ∀ (s : MetricsStore), s.requests.length + evs.length ≤ 10000 →
    (evs.foldl MetricsStore.addRequest s).requests = s.requests ++ evs := by
  induction evs with
  | nil => intro s _; simp
  | cons e rest ih =>
    intro s hs
    simp only [List.foldl_cons]
    rw [ih (s.addRequest e) (by
      rw [addRequest_requests_of_le s e (by simp at hs; omega)]
      simp at hs ⊢
      omega)]
    rw [addRequest_requests_of_le s e (by simp at hs; omega)]
    simp

/-- C5 (amended): the in-memory ring eviction is size-based — once more
than 10000 events are held only the newest 5000 are kept, regardless of
timestamp, so events newer than one hour CAN be evicted (see the
counterexample).  Windowed queries match the no-eviction counts as long
as at most 10000 events have been recorded. -/
theorem c5_windows_without_eviction (evs : List RequestEvent)
    (mb : Nat) (now : Int) (h : evs.length ≤ 10000) :
    ((applyEvents evs).getRecentRequests mb now).length =
      recentCountNoEvict evs mb now ∧
    ((applyEvents evs).getRecentFailures mb now).length =
      failuresNoEvict evs mb now := by
  have hreq : (applyEvents evs).requests = evs := by
    have := foldl_addRequest_requests evs MetricsStore.empty
      (by simp [MetricsStore.empty, h])
    simpa [applyEvents, MetricsStore.empty] using this
  constructor
  · unfold MetricsStore.getRecentRequests recentCountNoEvict
    rw [hreq]
  · unfold MetricsStore.getRecentFailures failuresNoEvict
    rw [hreq]

/-- Witness for `c5_windows_without_eviction` on a one-event log. -/
theorem c5_windows_without_eviction_witness :
    ((applyEvents [evFill]).getRecentRequests 60 0).length =
      recentCountNoEvict [evFill] 60 0 ∧
    ((applyEvents [evFill]).getRecentFailures 60 0).length =
      failuresNoEvict [evFill] 60 0 :=
  c5_windows_without_eviction [evFill] 60 0 (by decide)

/-! ### C6 — persist/load round trip -/

theorem addPerformanceData_of_le (s : MetricsStore) (p : PerfSample)
    (h : s.performanceData.length + 1 ≤ 5000) :
    (s.addPerformanceData p).performanceData = s.performanceData ++ [p] := by
  have hcond : ¬((s.performanceData ++ [p]).length > 5000) := by
    simp
    omega
  show (if (s.performanceData ++ [p]).length > 5000
      then (s.performanceData ++ [p]).drop ((s.performanceData ++ [p]).length - 2500)
      else s.performanceData ++ [p]) = s.performanceData ++ [p]
  rw [if_neg hcond]

theorem lookupA_bumpIfPresent_isSome (l : List (String × Nat))
    (k k2 : String) :
    (lookupA (bumpIfPresent l k2) k).isSome = (lookupA l k).isSome := by
  unfold bumpIfPresent
  split
  · by_cases h : k = k2
    · subst h
      rw [lookupA_updateA_self]
      cases lookupA l k <;> rfl
    · rw [lookupA_updateA_ne _ _ _ _ h]
  · rfl

theorem rebuild_platform_isSome (evs : List RequestEvent) (k : String) :
    ∀ c : Counters,
    (lookupA (evs.foldl rebuildStep c).requestsByPlatform k).isSome =
      (lookupA c.requestsByPlatform k).isSome := by
  induction evs with
  | nil => intro c; rfl
  | cons e rest ih =>
    intro c
    rw [List.foldl_cons, ih]
    exact lookupA_bumpIfPresent_isSome _ _ _

theorem rebuild_chatType_isSome (evs : List RequestEvent) (k : String) :
    ∀ c : Counters,
    (lookupA (evs.foldl rebuildStep c).requestsByChatType k).isSome =
      (lookupA c.requestsByChatType k).isSome := by
  induction evs with
  | nil => intro c; rfl
  | cons e rest ih =>
    intro c
    rw [List.foldl_cons, ih]
    exact lookupA_bumpIfPresent_isSome _ _ _

theorem bumpKey_eq_bumpIfPresent (l : List (String × Nat)) (k : String)
    (h : (lookupA l k).isSome = true) : bumpKey l k = bumpIfPresent l k := by
  unfold bumpKey bumpIfPresent
  rw [if_pos h, if_pos h]

theorem recordStep_eq_rebuildStep (c : Counters) (e : RequestEvent)
    (hp : (lookupA c.requestsByPlatform e.platform).isSome = true)
    (hc : (lookupA c.requestsByChatType e.chatType).isSome = true) :
    recordStep c e = rebuildStep c e := by
  unfold recordStep rebuildStep
  rw [bumpKey_eq_bumpIfPresent _ _ hp, bumpKey_eq_bumpIfPresent _ _ hc]

theorem rebuildCounters_append_one (l : List RequestEvent) (e : RequestEvent) :
    rebuildCounters (l ++ [e]) = rebuildStep (rebuildCounters l) e := by
  unfold rebuildCounters
  rw [List.foldl_append]
  simp only [List.foldl_cons, List.foldl_nil]

theorem rebuildPerf_append_one (l : List PerfSample) (p : PerfSample) :
    rebuildPerf (l ++ [p]) = rebuildPerfStep (rebuildPerf l) p := by
  unfold rebuildPerf
  rw [List.foldl_append]
  simp only [List.foldl_cons, List.foldl_nil]

/-- The accumulator invariant of `BotMetrics`: as long as no ring
eviction fires and platforms/chat types stay within the counter keys,
the incremental counters equal a full rebuild from the stored logs. -/
theorem botMetrics_counters_rebuild (ops : List MOp) :
    ∀ m : BotMetrics, (∀ op ∈ ops, op.ok) →
    m.store.requests.length + recCount ops ≤ 10000 →
    m.store.performanceData.length + perfCount ops ≤ 5000 →
    m.counters = rebuildCounters m.store.requests →
    m.performanceData = rebuildPerf m.store.performanceData →
    (applyMOps m ops).counters =
        rebuildCounters (applyMOps m ops).store.requests ∧
      (applyMOps m ops).performanceData =
        rebuildPerf (applyMOps m ops).store.performanceData := by
  induction ops with
  | nil => intro m _ _ _ hc hp; exact ⟨hc, hp⟩
  | cons op rest ih =>
    intro m hok hreq hperf hc hp
    have hokt : ∀ o ∈ rest, o.ok :=
      fun o ho => hok o (List.mem_cons_of_mem _ ho)
    show ((applyMOps (applyMOp m op) rest).counters = _) ∧ _
    cases op with
    | record cid ct p suc nm t =>
      obtain ⟨hpl, hct⟩ := hok _ (List.mem_cons_self _ _)
      have hcnt : recCount (MOp.record cid ct p suc nm t :: rest) =
          recCount rest + 1 := by
        simp [recCount, List.countP_cons]
      have hpcnt : perfCount (MOp.record cid ct p suc nm t :: rest) =
          perfCount rest := by
        simp [perfCount, List.countP_cons]
      rw [hcnt] at hreq
      rw [hpcnt] at hperf
      have hreq1 : (m.recordRequest cid ct p suc nm t).store.requests =
          m.store.requests ++ [⟨t, cid, ct, p, suc, nm⟩] :=
        addRequest_requests_of_le _ _ (by omega)
      rw [show applyMOp m (MOp.record cid ct p suc nm t) =
        m.recordRequest cid ct p suc nm t from rfl]
      apply ih
      · exact hokt
      · rw [hreq1]
        simp only [List.length_append, List.length_cons, List.length_nil]
        omega
      · exact hperf
      · show recordStep m.counters ⟨t, cid, ct, p, suc, nm⟩ = _
        rw [hreq1, rebuildCounters_append_one, hc]
        apply recordStep_eq_rebuildStep
        · rw [show (rebuildCounters m.store.requests) =
            (m.store.requests.foldl rebuildStep initCounters) from rfl]
          rw [rebuild_platform_isSome]
          rcases hpl with h | h | h <;> rw [h] <;> rfl
        · rw [show (rebuildCounters m.store.requests) =
            (m.store.requests.foldl rebuildStep initCounters) from rfl]
          rw [rebuild_chatType_isSome]
          rcases hct with h | h | h <;> rw [h] <;> rfl
      · exact hp
    | download cid p lat fs err t =>
      have hcnt : recCount (MOp.download cid p lat fs err t :: rest) =
          recCount rest := by
        simp [recCount, List.countP_cons]
      have hpcnt : perfCount (MOp.download cid p lat fs err t :: rest) =
          perfCount rest + 1 := by
        simp [perfCount, List.countP_cons]
      rw [hcnt] at hreq
      rw [hpcnt] at hperf
      have hpd1 : (m.recordDownloadMetrics cid p lat fs err t).store.performanceData =
          m.store.performanceData ++ [⟨t, cid, p, lat, fs, err⟩] :=
        addPerformanceData_of_le _ _ (by omega)
      rw [show applyMOp m (MOp.download cid p lat fs err t) =
        m.recordDownloadMetrics cid p lat fs err t from rfl]
      apply ih
      · exact hokt
      · exact hreq
      · rw [hpd1]
        simp only [List.length_append, List.length_cons, List.length_nil]
        omega
      · exact hc
      · show (if err.isNone then _ else m.performanceData) = _
        rw [hpd1, rebuildPerf_append_one, hp]
        rfl

/-- C6 (amended): `Persist` followed by `Load` + counter rebuild on a
fresh instance reproduces `GlobalSummary` output identical to the
original's in its `counters`, `performance` and `rateLimits` — apart from
`uptime` AND `activeWindows` (the per-chat sliding windows are not
persisted or rebuilt, see the counterexample) — provided the recorded
platforms and chat types are within the counter key sets and the two
in-memory ring caps were never exceeded (at most 10000 request events
and 5000 performance samples). -/
theorem c6_roundtrip (ops : List MOp) (t0 t1 now : Int)
    (hok : ∀ op ∈ ops, op.ok)
    (hrc : recCount ops ≤ 10000) (hpc : perfCount ops ≤ 5000) :
    ((BotMetrics.freshLoaded (applyMOps (BotMetrics.fresh t0)
        ops).store.persistData t1).getGlobalMetrics now).counters =
      (((applyMOps (BotMetrics.fresh t0) ops)).getGlobalMetrics
        now).counters ∧
    ((BotMetrics.freshLoaded (applyMOps (BotMetrics.fresh t0)
        ops).store.persistData t1).getGlobalMetrics now).performance =
      (((applyMOps (BotMetrics.fresh t0) ops)).getGlobalMetrics
        now).performance ∧
    ((BotMetrics.freshLoaded (applyMOps (BotMetrics.fresh t0)
        ops).store.persistData t1).getGlobalMetrics now).rateLimits =
      (((applyMOps (BotMetrics.fresh t0) ops)).getGlobalMetrics
        now).rateLimits := by
  have hinv := botMetrics_counters_rebuild ops (BotMetrics.fresh t0) hok
    (by simpa [BotMetrics.fresh, MetricsStore.empty] using hrc)
    (by simpa [BotMetrics.fresh, MetricsStore.empty] using hpc)
    rfl rfl
  set m := applyMOps (BotMetrics.fresh t0) ops with hm
  set m2 := BotMetrics.freshLoaded m.store.persistData t1 with hm2
  have hcn : m2.counters = m.counters := by
    rw [show m2.counters = rebuildCounters m.store.requests from rfl]
    exact hinv.1.symm
  have hpd : m2.performanceData = m.performanceData := by
    rw [show m2.performanceData = rebuildPerf m.store.performanceData from rfl]
    exact hinv.2.symm
  refine ⟨?_, ?_, rfl⟩
  · show m2.counters = m.counters
    exact hcn
  · show (BotMetrics.getGlobalMetrics m2 now).performance =
      (BotMetrics.getGlobalMetrics m now).performance
    unfold BotMetrics.getGlobalMetrics
    rw [hcn, hpd]

/-- A metrics instance with one recorded request. -/
def mOneRequest : BotMetrics :=
  (BotMetrics.fresh 0).recordRequest "A" "private" "instagram" true none 0

/-- C6 counterexample: `getGlobalMetrics` reports `activeWindows` (the
number of per-chat rate-limit windows).  The original instance reports 1
after one request; after `Persist` + `Load` + rebuild the fresh instance
reports 0, because `rateLimitWindows` is neither persisted nor rebuilt —
so the round trip is NOT identical modulo uptime alone. -/
theorem c6_counterexample :
    (mOneRequest.getGlobalMetrics 10).activeWindows = 1 ∧
    ((BotMetrics.freshLoaded mOneRequest.store.persistData
      5).getGlobalMetrics 10).activeWindows = 0 ∧
    (1 : Nat) ≠ 0 := by
  decide

/-- Witness for `c6_roundtrip` at one recorded request. -/
theorem c6_roundtrip_witness :
    ((BotMetrics.freshLoaded (applyMOps (BotMetrics.fresh 0)
        [MOp.record "A" "private" "instagram" true none 0]).store.persistData
        5).getGlobalMetrics 10).counters =
      (((applyMOps (BotMetrics.fresh 0)
        [MOp.record "A" "private" "instagram" true none 0])).getGlobalMetrics
        10).counters ∧
    ((BotMetrics.freshLoaded (applyMOps (BotMetrics.fresh 0)
        [MOp.record "A" "private" "instagram" true none 0]).store.persistData
        5).getGlobalMetrics 10).performance =
      (((applyMOps (BotMetrics.fresh 0)
        [MOp.record "A" "private" "instagram" true none 0])).getGlobalMetrics
        10).performance ∧
    ((BotMetrics.freshLoaded (applyMOps (BotMetrics.fresh 0)
        [MOp.record "A" "private" "instagram" true none 0]).store.persistData
        5).getGlobalMetrics 10).rateLimits =
      (((applyMOps (BotMetrics.fresh 0)
        [MOp.record "A" "private" "instagram" true none 0])).getGlobalMetrics
        10).rateLimits :=
  c6_roundtrip [MOp.record "A" "private" "instagram" true none 0] 0 5 10
    (by decide) (by decide) (by decide)

/-! ### C8 — warning suppression window -/

theorem runD_cons (s : Sys) (k ct : String) (t : Int)
    (rest : List (String × Int)) :
    runD s k ((ct, t) :: rest) =
      (ct, t, (s.checkRateLimit k ct t).1) ::
        runD (s.checkRateLimit k ct t).2 k rest := rfl

theorem warnTimeAt_cons_succ (x : String × Int × Decision)
    (l : List (String × Int × Decision)) (j : Nat) :
    warnTimeAt (x :: l) (j + 1) = warnTimeAt l j := by
  simp [warnTimeAt]

theorem warnTimeAt_cons_zero (ct : String) (t : Int) (d : Decision)
    (l : List (String × Int × Decision)) :
    warnTimeAt ((ct, t, d) :: l) 0 =
      if d.warning.isSome then some t else none := by
  simp [warnTimeAt]

/-- Behaviour of one `checkForWarnings` call: a warning is issued only
more than 300000 ms after the stored warning time (which it then
overwrites with `now`); otherwise the warning map is untouched. -/
theorem checkForWarnings_step (L : RLLimits) (ws : List (String × Int))
    (k : String) (rc : RateCheck) (ct : String) (t : Int) :
    ((checkForWarnings L ws k rc ct t).1.isSome = true →
      (∀ w, lookupA ws k = some w → t - w > 300000) ∧
      lookupA (checkForWarnings L ws k rc ct t).2 k = some t) ∧
    ((checkForWarnings L ws k rc ct t).1.isSome = false →
      (checkForWarnings L ws k rc ct t).2 = ws) := by
  simp only [checkForWarnings]
  split
  · split
    · next hcond =>
      constructor
      · intro _
        refine ⟨?_, lookupA_setA_self _ _ _⟩
        intro w hw
        rw [hw] at hcond
        simpa using hcond
      · intro habs
        simp at habs
    · constructor
      · intro habs
        simp at habs
      · intro _
        rfl
  · constructor
    · intro habs
      simp at habs
    · intro _
      rfl

/-- Behaviour of one `Decide` call on the warning map: a warning is
attached only more than 300000 ms after the chat's stored warning time,
which it then overwrites with `now`; every other outcome leaves the
warning map untouched. -/
theorem checkRateLimit_warning_step (s : Sys) (k ct : String) (t : Int) :
    ((s.checkRateLimit k ct t).1.warning.isSome = true →
      (∀ w, lookupA s.rl.chatWarnings k = some w → t - w > 300000) ∧
      lookupA (s.checkRateLimit k ct t).2.rl.chatWarnings k = some t) ∧
    ((s.checkRateLimit k ct t).1.warning.isSome = false →
      (s.checkRateLimit k ct t).2.rl.chatWarnings = s.rl.chatWarnings) := by
  simp only [Sys.checkRateLimit]
  split
  · constructor
    · intro habs
      simp at habs
    · intro _
      rfl
  · split
    · constructor
      · intro habs
        simp at habs
      · intro _
        rfl
    · split
      · constructor
        · intro habs
          simp at habs
        · intro _
          rfl
      · split
        · constructor
          · intro habs
            simp at habs
          · intro _
            rfl
        · split
          · constructor
            · intro habs
              simp at habs
            · intro _
              rfl
          · exact checkForWarnings_step s.rl.limits s.rl.chatWarnings k _ ct t

/-- After a warning stored at time `w`, every later warning of a run
comes more than 300000 ms after `w`. -/
theorem runD_warn_after (k : String) (calls : List (String × Int)) :
    ∀ (s : Sys) (w : Int), lookupA s.rl.chatWarnings k = some w →
    ∀ (j : Nat) (tj : Int), warnTimeAt (runD s k calls) j = some tj →
    tj - w > 300000 := by
  induction calls with
  | nil =>
    intro s w _ j tj h
    simp [runD, warnTimeAt] at h
  | cons c rest ih =>
    intro s w hw j tj hj
    obtain ⟨ct, t⟩ := c
    cases j with
    | zero =>
      rw [runD_cons, warnTimeAt_cons_zero] at hj
      by_cases hd : (s.checkRateLimit k ct t).1.warning.isSome
      · rw [if_pos hd] at hj
        obtain rfl : t = tj := by injection hj
        exact ((checkRateLimit_warning_step s k ct t).1 hd).1 w hw
      · rw [if_neg hd] at hj
        exact absurd hj (by simp)
    | succ j2 =>
      rw [runD_cons, warnTimeAt_cons_succ] at hj
      by_cases hd : (s.checkRateLimit k ct t).1.warning.isSome
      · have hstep := (checkRateLimit_warning_step s k ct t).1 hd
        have hgap : t - w > 300000 := hstep.1 w hw
        have hrec := ih (s.checkRateLimit k ct t).2 t hstep.2 j2 tj hj
        omega
      · have hstep := (checkRateLimit_warning_step s k ct t).2
          (by simpa using hd)
        have hw2 : lookupA (s.checkRateLimit k ct t).2.rl.chatWarnings k =
            some w := by
          rw [hstep]
          exact hw
        exact ih _ w hw2 j2 tj hj

/-- C8: across any run of `Decide` calls for one chat, two calls that
both attach a warning are always more than 300000 ms (5 minutes) apart —
a second warning is never returned within the suppression window of the
previous one. -/
theorem c8_warning_suppression (s : Sys) (k : String)
    (calls : List (String × Int)) :
    ∀ (i j : Nat) (ti tj : Int), i < j →
    warnTimeAt (runD s k calls) i = some ti →
    warnTimeAt (runD s k calls) j = some tj →
    tj - ti > 300000 := by
  induction calls generalizing s with
  | nil =>
    intro i j ti tj _ hi _
    simp [runD, warnTimeAt] at hi
  | cons c rest ih =>
    intro i j ti tj hij hi hj
    obtain ⟨ct, t⟩ := c
    cases i with
    | zero =>
      rw [runD_cons, warnTimeAt_cons_zero] at hi
      obtain ⟨j2, rfl⟩ : ∃ j2, j = j2 + 1 := ⟨j - 1, by omega⟩
      rw [runD_cons, warnTimeAt_cons_succ] at hj
      by_cases hd : (s.checkRateLimit k ct t).1.warning.isSome
      · rw [if_pos hd] at hi
        obtain rfl : t = ti := by injection hi
        exact runD_warn_after k rest _ t
          ((checkRateLimit_warning_step s k ct t).1 hd).2 j2 tj hj
      · rw [if_neg hd] at hi
        exact absurd hi (by simp)
    | succ i2 =>
      obtain ⟨j2, rfl⟩ : ∃ j2, j = j2 + 1 := ⟨j - 1, by omega⟩
      rw [runD_cons, warnTimeAt_cons_succ] at hi hj
      exact ih _ i2 j2 ti tj (by omega) hi hj

/-- A system whose chat "A" already holds 16 admitted requests: 8 spread
over 21 seconds from t = 0 and 8 spread over 21 seconds from t = 280000,
so both probe calls below sit at ≥ 80% of the private per-minute limit
(10) without tripping rapid-fire. -/
def sysWarn : Sys :=
  ⟨RateLimiter.fresh,
    ([0, 3000, 6000, 9000, 12000, 15000, 18000, 21000,
      280000, 283000, 286000, 289000, 292000, 295000, 298000, 301000] :
        List Int).foldl
      (fun m t => m.recordRequest "A" "private" "instagram" true none t)
      (BotMetrics.fresh 0)⟩

/-- The two probe calls: both at ≥ 80% usage, 300001 ms apart. -/
def callsWarn : List (String × Int) := [("private", 22000), ("private", 322001)]

/-- Witness for `c8_warning_suppression`: both calls of `callsWarn`
attach warnings, and they are more than 300000 ms apart. -/
theorem c8_warning_suppression_witness :
    warnTimeAt (runD sysWarn "A" callsWarn) 0 = some 22000 ∧
    warnTimeAt (runD sysWarn "A" callsWarn) 1 = some 322001 ∧
    (322001 : Int) - 22000 > 300000 :=
  ⟨by decide, by decide,
    c8_warning_suppression sysWarn "A" callsWarn 0 1 22000 322001
      (by decide) (by decide) (by decide)⟩

/-- Fill traffic: a recorded failure of another chat ("X") used to pad
the event log to its cap. -/
def evX : RequestEvent := ⟨0, "X", "private", "instagram", false, none⟩

/-- Interleaved traffic between the "A"-failures: recorded failures of
chat "B" (reachable in volume — the bot records a failure event on every
denied request). -/
def evB : RequestEvent := ⟨2, "B", "private", "instagram", false, none⟩

/-- The three failure events of chat "A". -/
def eA1 : RequestEvent := ⟨1, "A", "private", "instagram", false, none⟩

def eA2 : RequestEvent := ⟨3, "A", "private", "instagram", false, none⟩

def eA3 : RequestEvent := ⟨4, "A", "private", "instagram", false, none⟩

/-- `recordRequest` with the arguments bundled as an event. -/
def recordEv (m : BotMetrics) (e : RequestEvent) : BotMetrics :=
  m.recordRequest e.chatId e.chatType e.platform e.isSuccess e.chatName
    e.timestamp

theorem store_foldl_recordEv (evs : List RequestEvent) :
    ∀ m : BotMetrics, (evs.foldl recordEv m).store =
      evs.foldl MetricsStore.addRequest m.store := by
  induction evs with
  | nil => intro m; rfl
  | cons e rest ih =>
    intro m
    rw [List.foldl_cons, List.foldl_cons, ih (recordEv m e)]
    exact congrArg (fun s => List.foldl MetricsStore.addRequest s rest) rfl

/-- `onRequestFailed` arms nothing when fewer than 3 recent failures are
counted. -/
theorem failOp_rl_of_lt (s : Sys) (k ct p : String) (n : Option String)
    (t : Int)
    (h : getRecentFailuresCount
      (s.metrics.recordRequest k ct p false n t).store k t < 3) :
    (s.failOp k ct p n t).rl = s.rl := by
  have h2 : ¬(getRecentFailuresCount
      (s.metrics.recordRequest k ct p false n t).store k t ≥ 3) := by omega
  simp only [Sys.failOp, Sys.onRequestFailed]
  rw [if_neg h2]

/-- The system at the event-log cap: 10000 recorded events of chat "X". -/
def c3sysFilled : Sys :=
  ⟨RateLimiter.fresh,
    (List.replicate 10000 evX).foldl recordEv (BotMetrics.fresh 0)⟩

/-- First `OnFailure` for "A" at t = 1. -/
def c3sysAfterFirst : Sys := c3sysFilled.failOp "A" "private" "instagram" none 1

/-- 5001 interleaved recordings of "B"-failures at t = 2: the 5001st
pushes the log past 10000 and the eviction drops the oldest 5001 events,
among them the just-recorded "A"-failure. -/
def c3metricsInterleaved : BotMetrics :=
  (List.replicate 5001 evB).foldl recordEv c3sysAfterFirst.metrics

def c3sysInterleaved : Sys := ⟨c3sysAfterFirst.rl, c3metricsInterleaved⟩

theorem sysRl_mk (x : RateLimiter) (m : BotMetrics) :
    Sys.rl ⟨x, m⟩ = x := rfl

theorem sysMetrics_mk (x : RateLimiter) (m : BotMetrics) :
    Sys.metrics ⟨x, m⟩ = m := rfl

theorem c3sysInterleaved_eq :
    c3sysInterleaved = ⟨c3sysAfterFirst.rl, c3metricsInterleaved⟩ := rfl

/-- Second and third `OnFailure` for "A" at t = 3 and t = 4. -/
def c3sysFinal : Sys :=
  (c3sysInterleaved.failOp "A" "private" "instagram" none 3).failOp
    "A" "private" "instagram" none 4

theorem c3trace_filled_requests :
    c3sysFilled.metrics.store.requests = List.replicate 10000 evX := by
  simp only [c3sysFilled]
  rw [store_foldl_recordEv]
  rw [foldl_addRequest_requests _ _ (by
    rw [show (BotMetrics.fresh 0).store.requests = ([] : List RequestEvent)
      from rfl]
    simp only [List.length_nil, List.length_replicate]
    omega)]
  rw [show (BotMetrics.fresh 0).store.requests = ([] : List RequestEvent)
    from rfl, List.nil_append]

theorem c3trace_first_requests :
    (c3sysFilled.metrics.recordRequest "A" "private" "instagram" false none
      1).store.requests = List.replicate 4999 evX ++ [eA1] := by
  show (c3sysFilled.metrics.store.addRequest eA1).requests = _
  rw [addRequest_requests_of_gt _ _
    (by rw [c3trace_filled_requests, List.length_replicate]; omega)]
  rw [c3trace_filled_requests, List.length_replicate,
    List.drop_append_eq_append_drop, List.length_replicate, drop_replicate_eq]
  norm_num

theorem c3trace_first_count :
    getRecentFailuresCount (c3sysFilled.metrics.recordRequest "A" "private"
      "instagram" false none 1).store "A" 1 = 1 := by
  unfold getRecentFailuresCount MetricsStore.getRecentFailures
  rw [c3trace_first_requests]
  simp only [List.filter_append]
  rw [filter_replicate_eq, if_pos (by decide)]
  rw [filter_replicate_eq, if_neg (by decide)]
  rfl

theorem c3trace_first_rl : c3sysAfterFirst.rl = RateLimiter.fresh := by
  simp only [c3sysAfterFirst]
  rw [failOp_rl_of_lt _ _ _ _ _ _ (by rw [c3trace_first_count]; omega)]
  simp only [c3sysFilled]

theorem c3trace_afterFirst_requests :
    c3sysAfterFirst.metrics.store.requests =
      List.replicate 4999 evX ++ [eA1] := by
  simp only [c3sysAfterFirst]
  rw [failOp_metrics, c3trace_first_requests]

theorem c3trace_interleaved_requests :
    c3sysInterleaved.metrics.store.requests =
      List.replicate 4999 evB ++ [evB] := by
  rw [c3sysInterleaved_eq, sysMetrics_mk,
    show c3metricsInterleaved =
      (List.replicate 5001 evB).foldl recordEv c3sysAfterFirst.metrics
      from rfl]
  rw [store_foldl_recordEv]
  rw [show (5001 : Nat) = 5000 + 1 by norm_num, List.replicate_succ']
  rw [List.foldl_append]
  simp only [List.foldl_cons, List.foldl_nil]
  have hmid : (List.foldl MetricsStore.addRequest c3sysAfterFirst.metrics.store
      (List.replicate 5000 evB)).requests =
      (List.replicate 4999 evX ++ [eA1]) ++ List.replicate 5000 evB := by
    rw [foldl_addRequest_requests _ _ (by
      rw [c3trace_afterFirst_requests]
      simp only [List.length_append, List.length_replicate, List.length_cons,
        List.length_nil]
      omega)]
    rw [c3trace_afterFirst_requests]
  rw [addRequest_requests_of_gt _ _ (by
    rw [hmid]
    simp only [List.length_append, List.length_replicate, List.length_cons,
      List.length_nil]
    omega)]
  rw [hmid]
  simp only [List.length_append, List.length_replicate, List.length_cons,
    List.length_nil, List.append_assoc]
  norm_num [List.drop_append_eq_append_drop, drop_replicate_eq]

theorem c3trace_second_requests :
    (c3sysInterleaved.metrics.recordRequest "A" "private" "instagram" false
      none 3).store.requests =
      (List.replicate 4999 evB ++ [evB]) ++ [eA2] := by
  show (c3sysInterleaved.metrics.store.addRequest eA2).requests = _
  rw [addRequest_requests_of_le _ _ (by
    rw [c3trace_interleaved_requests]
    simp only [List.length_append, List.length_replicate, List.length_cons,
      List.length_nil]
    omega)]
  rw [c3trace_interleaved_requests]

theorem c3trace_second_count :
    getRecentFailuresCount (c3sysInterleaved.metrics.recordRequest "A"
      "private" "instagram" false none 3).store "A" 3 = 1 := by
  unfold getRecentFailuresCount MetricsStore.getRecentFailures
  rw [c3trace_second_requests]
  simp only [List.filter_append]
  rw [filter_replicate_eq, if_pos (by decide)]
  rw [filter_replicate_eq, if_neg (by decide)]
  rfl

theorem c3trace_second_rl :
    (c3sysInterleaved.failOp "A" "private" "instagram" none 3).rl =
      RateLimiter.fresh := by
  have hcount : getRecentFailuresCount (c3sysInterleaved.metrics.recordRequest
      "A" "private" "instagram" false none 3).store "A" 3 < 3 := by
    rw [c3trace_second_count]
    omega
  rw [failOp_rl_of_lt c3sysInterleaved "A" "private" "instagram" none 3
    hcount, c3sysInterleaved_eq, sysRl_mk]
  exact c3trace_first_rl

theorem c3trace_third_requests :
    ((c3sysInterleaved.failOp "A" "private" "instagram" none
      3).metrics.recordRequest "A" "private" "instagram" false none
      4).store.requests =
      ((List.replicate 4999 evB ++ [evB]) ++ [eA2]) ++ [eA3] := by
  rw [failOp_metrics]
  show ((c3sysInterleaved.metrics.recordRequest "A" "private" "instagram"
    false none 3).store.addRequest eA3).requests = _
  rw [addRequest_requests_of_le _ _ (by
    rw [c3trace_second_requests]
    simp only [List.length_append, List.length_replicate, List.length_cons,
      List.length_nil]
    omega)]
  rw [c3trace_second_requests]

theorem c3trace_third_count :
    getRecentFailuresCount ((c3sysInterleaved.failOp "A" "private"
      "instagram" none 3).metrics.recordRequest "A" "private" "instagram"
      false none 4).store "A" 4 = 2 := by
  unfold getRecentFailuresCount MetricsStore.getRecentFailures
  rw [c3trace_third_requests]
  simp only [List.filter_append]
  rw [filter_replicate_eq, if_pos (by decide)]
  rw [filter_replicate_eq, if_neg (by decide)]
  rfl

/-- C3 counterexample: three `OnFailure` calls for chat "A" at t = 1, 3,
4 — all inside one 10-minute window, with no intervening success for "A"
— yet no penalty entry exists after the third call.  The event log was
at its 10000-event cap, so the size-based eviction (`slice(-5000)`)
removed the first recorded "A"-failure while 5001 interleaved recordings
of other chats' failures went through, and the third `onRequestFailed`
counts only the 2 remaining recent failures. -/
theorem c3_counterexample :
    lookupA c3sysFinal.rl.chatPenalties "A" = none ∧
    getRecentFailuresCount c3sysFinal.metrics.store "A" 4 = 2 := by
  have hcount : getRecentFailuresCount ((c3sysInterleaved.failOp "A"
      "private" "instagram" none 3).metrics.recordRequest "A" "private"
      "instagram" false none 4).store "A" 4 < 3 := by
    rw [c3trace_third_count]
    omega
  have hrl : c3sysFinal.rl = RateLimiter.fresh :=
    (failOp_rl_of_lt (c3sysInterleaved.failOp "A" "private" "instagram"
      none 3) "A" "private" "instagram" none 4 hcount).trans
      c3trace_second_rl
  constructor
  · rw [hrl]
    rfl
  · have hm : c3sysFinal.metrics =
        (c3sysInterleaved.failOp "A" "private" "instagram" none
          3).metrics.recordRequest "A" "private" "instagram" false none 4 :=
      failOp_metrics (c3sysInterleaved.failOp "A" "private" "instagram"
        none 3) "A" "private" "instagram" none 4
    rw [hm]
    exact c3trace_third_count
